import Mathlib

/-!
# Verification of the ArcWelder controller (`ArcWelder/arc_welder.cpp`)

A shallow embedding of the arc-welder controller state machine from
`src/ArcWelder/arc_welder.cpp`.  The controller itself (`process_gcode`,
`write_arc_gcodes`, `get_comment_for_arc`, `write_unwritten_gcodes_to_file`,
`get_progress_`, the `process` loop) is translated from the source.  Its
external collaborators (the gcode parser, the `gcode_position` tracker, the
`segmented_arc` engine and the `array_list` commit buffer) are not part of
the source file; they are modelled from the spec as abstract interfaces
(records of functions / oracles), and all controller theorems quantify over
them.

Conventions of the embedding:
* Machine doubles become `ℚ`.  `utilities::is_equal` (an epsilon compare of
  doubles) becomes exact equality on `ℚ`; no claim in this development
  depends on the epsilon.  Euclidean distances (which need square roots)
  are supplied by an oracle field of the configuration; no claim depends on
  their numeric value.
* File I/O becomes explicit data: the output file is a list of written
  lines, the source file a list of pre-parsed commands, and the wall clock
  and progress callback are boolean oracles indexed by the line counter.
* Several `WelderState` fields are ghost instrumentation (they mirror no
  C++ member but count events of the run): `undo_count` counts calls of
  `gcode_position::undo_update`, `commit_count` counts calls of
  `write_arc_gcodes`, `reprocess_count` counts re-entries of
  `process_gcode`, and `arc_events` records the segment count of every
  emitted arc.  They are written exactly at the corresponding call sites
  and are read by no definition, only by theorems.
-/

/-- Modelled from the spec: the parser's output for one source line
(command token, original line text, trailing comment, and the
`is_empty` / `is_known_command` flags).  The parser itself is external. -/
structure parsed_command where
  command : String
  gcode : String
  comment : String
  is_empty : Bool
  is_known_command : Bool
deriving DecidableEq, Repr

/-- Modelled from the spec: a default-constructed (cleared) parsed command,
as produced by `parsed_command::clear()`. -/
def parsed_command.cleared : parsed_command :=
  { command := "", gcode := "", comment := "", is_empty := true, is_known_command := false }

/-- Modelled from the spec: the extruder sub-state of a tracker position
(the fields of `extruder` read by the controller). -/
structure extruder_state where
  is_extruding : Bool
  is_retracting : Bool
  e_relative : ℚ
  e : ℚ
  offset_e : ℚ
deriving DecidableEq, Repr

/-- Modelled from the spec: one snapshot of the position tracker
(the fields of `position` read by the controller). -/
structure position where
  x : ℚ
  y : ℚ
  z : ℚ
  x_offset : ℚ
  y_offset : ℚ
  z_offset : ℚ
  x_firmware_offset : ℚ
  y_firmware_offset : ℚ
  z_firmware_offset : ℚ
  is_relative : Bool
  is_extruder_relative : Bool
  f : ℚ
  feature_type_tag : String
  has_xy_position_changed : Bool
  extr : extruder_state
  command : parsed_command
deriving DecidableEq, Repr

/-- Modelled from the spec: `position::get_gcode_x` (coordinate with the
workspace and firmware offsets removed). -/
def position.get_gcode_x (p : position) : ℚ := p.x - p.x_offset + p.x_firmware_offset

/-- Modelled from the spec: `position::get_gcode_y`. -/
def position.get_gcode_y (p : position) : ℚ := p.y - p.y_offset + p.y_firmware_offset

/-- Modelled from the spec: `position::get_gcode_z`. -/
def position.get_gcode_z (p : position) : ℚ := p.z - p.z_offset + p.z_firmware_offset

/-- The `printer_point`: a toolhead point fed to the arc engine
(spec §3; constructed at `arc_welder.cpp:464` and `:474`). -/
structure printer_point where
  x : ℚ
  y : ℚ
  z : ℚ
  e_relative : ℚ
  distance : ℚ
deriving DecidableEq, Repr

/-- Modelled from the spec: one entry of the commit buffer
(`UnwrittenCommand`: verbatim text, trailing comment, cached extrusion
length).  The C++ struct lives in `arc_welder.h`, outside the source file. -/
structure unwritten_command where
  serialized_text : String
  comment : String
  extrusion_length : ℚ
deriving DecidableEq, Repr

/-- Modelled from the spec: construction of an `unwritten_command` from the
tracker's current position and the movement length
(`unwritten_command(cur_pos, movement_length_mm)` at `arc_welder.cpp:646`). -/
def unwritten_command.of (p : position) (movement_length_mm : ℚ) : unwritten_command :=
  { serialized_text := p.command.gcode
    comment := p.command.comment
    extrusion_length := if p.extr.is_extruding then movement_length_mm else 0 }

/-- Modelled from the spec: `unwritten_command::to_string` re-emits the
verbatim line text. -/
def unwritten_command.to_string (u : unwritten_command) : String := u.serialized_text

/-- Modelled from the spec: the position tracker's ring of snapshots.
`cur`/`prev` are the `get_current_position_ptr` / `get_previous_position_ptr`
snapshots; `older` holds the earlier history used by `undo_update`. -/
structure tracker_state where
  cur : position
  prev : position
  older : List position
deriving DecidableEq, Repr

/-- Modelled from the spec: `gcode_position::update` — push the new
position computed from the command by the (external) modal interpreter `f`. -/
def tracker_update (f : position → parsed_command → position)
    (t : tracker_state) (cmd : parsed_command) : tracker_state :=
  { cur := f t.cur cmd, prev := t.cur, older := t.prev :: t.older }

/-- Modelled from the spec: `gcode_position::undo_update` — roll the
tracker back exactly one step. -/
def tracker_undo (t : tracker_state) : tracker_state :=
  match t.older with
  | [] => { cur := t.prev, prev := t.prev, older := [] }
  | p :: rest => { cur := t.prev, prev := p, older := rest }

/-- Modelled from the spec: the arc-fit engine interface (spec §4.1) over an
abstract engine-state type `σ`.  The engine implementation
(`segmented_arc` / `segmented_shape`) is external to the source file; the
controller theorems quantify over any implementation of this interface. -/
structure ArcEngine (σ : Type) where
  /-- The `try_add_point` call: the updated engine state and whether the point was
  accepted. -/
  try_add_point : σ → printer_point → σ × Bool
  get_num_segments : σ → Nat
  min_segments : Nat
  is_shape : σ → Bool
  clear : σ → σ
  get_shape_length : σ → ℚ
  /-- dynamic-precision update from a command's parameters
  (`update_xyz_precision` / `update_e_precision` loop at
  `arc_welder.cpp:420`-`436`); affects only serialization precision. -/
  update_precision : σ → parsed_command → σ
  get_shape_gcode_relative : σ → ℚ → String
  get_shape_gcode_absolute : σ → ℚ → ℚ → String

/-- The controller configuration: the flags of `arc_welder` together with
the external collaborators (arc engine, modal position interpreter,
distance oracle, clock and progress-callback oracles). -/
structure Config (σ : Type) where
  allow_3d_arcs : Bool
  allow_dynamic_precision : Bool
  engine : ArcEngine σ
  /-- the engine state constructed by the `arc_welder` constructor. -/
  arc0 : σ
  /-- Modelled from the spec: the position tracker's modal interpreter
  (how `gcode_position::update` computes the next position). -/
  update_fn : position → parsed_command → position
  /-- Modelled from the spec: `utilities::get_cartesian_distance` in XY. -/
  dist2 : position → position → ℚ
  /-- Modelled from the spec: `utilities::get_cartesian_distance` in XYZ. -/
  dist3 : position → position → ℚ
  /-- Modelled from the spec: whether the 1-second notification timer has
  fired, indexed by `lines_processed_` (the `% 1000` / clock test at
  `arc_welder.cpp:296`). -/
  clock_check : Nat → Bool
  /-- Modelled from the spec: the result of `on_progress_`, indexed by
  `lines_processed_` at the moment of the call (`true` = keep going). -/
  progress_cb : Nat → Bool
  /-- Modelled from the spec: the deterministic header block written by
  `add_arcwelder_comment_to_target` (float formatting elided). -/
  header_text : String

/-- The controller state: the mutable members of `arc_welder` that the
claims are about, plus the output file contents and ghost instrumentation
(see the file header). -/
structure WelderState (σ : Type) where
  tracker : tracker_state
  arc : σ
  waiting_for_arc : Bool
  previous_feedrate : ℚ
  previous_is_extruder_relative : Bool
  lines_processed : Nat
  gcodes_processed : Nat
  points_compressed : ℤ
  arcs_created : Nat
  unwritten_commands : List unwritten_command
  /-- the lines written to the target file so far. -/
  output : List String
  /-- The `segment_statistics_` updates, as (length, is-source) pairs. -/
  stats : List (ℚ × Bool)
  /-- ghost: segment count of every emitted arc, in order. -/
  arc_events : List Nat
  /-- ghost: number of `undo_update` calls. -/
  undo_count : Nat
  /-- ghost: number of `write_arc_gcodes` calls (= commits). -/
  commit_count : Nat
  /-- ghost: number of re-entries of `process_gcode`. -/
  reprocess_count : Nat

/-- Source `write_gcode_to_file` (`arc_welder.cpp:740`). -/
def write_gcode {σ : Type} (st : WelderState σ) (gcode : String) : WelderState σ :=
  { st with output := st.output ++ [gcode] }

/-- Source `write_unwritten_gcodes_to_file` (`arc_welder.cpp:746`): drain the
commit buffer to the output in FIFO order, recording an output-side
statistics update for every entry with positive extrusion length. -/
def write_unwritten_gcodes {σ : Type} (st : WelderState σ) : WelderState σ :=
  { st with
    unwritten_commands := []
    stats := st.stats ++
      ((st.unwritten_commands.filter (fun u => u.extrusion_length > 0)).map
        (fun u => (u.extrusion_length, false)))
    output := st.output ++ st.unwritten_commands.map unwritten_command.to_string }

/-- The pop-back loop of `write_arc_gcodes` (`arc_welder.cpp:663`-`666`):
`k` executions of `unwritten_commands_.pop_back()`. -/
def popBackN {α : Type} (l : List α) : Nat → List α
  | 0 => l
  | k + 1 => (popBackN l k).dropLast

/-- The accumulation step of `get_comment_for_arc` (`arc_welder.cpp:719`-`727`):
append `old` when it is non-empty and differs from the whole comment
accumulated so far, with separator `" - "`. -/
def comment_fold (acc : String) (old : String) : String :=
  if old ≠ acc ∧ old.length > 0 then
    (if acc.length > 0 then acc ++ " - " else acc) ++ old
  else acc

/-- Source `get_comment_for_arc` (`arc_welder.cpp:711`): fold `comment_fold` over
the comments of the last `n - 1` entries of the commit buffer (indices
`count - (n-1)` to `count - 1`), where `n` is the arc's segment count. -/
def get_comment_for_arc (cmds : List unwritten_command) (n : Nat) : String :=
  ((cmds.drop (cmds.length - (n - 1))).map (fun u => u.comment)).foldl comment_fold ""

/-- Source `get_arc_gcode_relative` (`arc_welder.cpp:766`). -/
def get_arc_gcode_relative {σ : Type} (cfg : Config σ) (arc : σ) (f : ℚ)
    (comment : String) : String :=
  let gcode := cfg.engine.get_shape_gcode_relative arc f
  if comment.length > 0 then gcode ++ ";" ++ comment else gcode

/-- Source `get_arc_gcode_absolute` (`arc_welder.cpp:781`). -/
def get_arc_gcode_absolute {σ : Type} (cfg : Config σ) (arc : σ) (e : ℚ) (f : ℚ)
    (comment : String) : String :=
  let gcode := cfg.engine.get_shape_gcode_absolute arc e f
  if comment.length > 0 then gcode ++ ";" ++ comment else gcode

/-- Source `write_arc_gcodes` (`arc_welder.cpp:656`): synthesize the arc comment,
pop the `N-1` absorbed entries off the back of the commit buffer, undo the
tracker one step, build the arc line (suppressing `F` when unchanged),
flush the remaining buffer, record the arc's length in the statistics,
write the arc line, and reset the engine and the `waiting_for_arc` flag.
The `is_extruder_relative` parameter is unused, as in the source. -/
def write_arc_gcodes {σ : Type} (cfg : Config σ) (st : WelderState σ)
    (_is_extruder_relative : Bool) (current_feedrate : ℚ) : WelderState σ :=
  let n := cfg.engine.get_num_segments st.arc
  let comment := get_comment_for_arc st.unwritten_commands n
  let st₁ := { st with
    unwritten_commands := popBackN st.unwritten_commands (n - 1)
    tracker := tracker_undo st.tracker
    undo_count := st.undo_count + 1 }
  let f := if st₁.previous_feedrate > 0 ∧ st₁.previous_feedrate = current_feedrate
           then 0 else current_feedrate
  let gcode :=
    if st₁.previous_is_extruder_relative then
      get_arc_gcode_relative cfg st₁.arc f comment
    else
      get_arc_gcode_absolute cfg st₁.arc st₁.tracker.cur.extr.offset_e f comment
  let st₂ := write_unwritten_gcodes st₁
  let st₃ := { st₂ with stats := st₂.stats ++ [(cfg.engine.get_shape_length st₂.arc, false)] }
  let st₄ := write_gcode st₃ gcode
  { st₄ with
    waiting_for_arc := false
    arc := cfg.engine.clear st₄.arc
    commit_count := st₄.commit_count + 1 }

/-- The arc-eligibility test of `process_gcode` (`arc_welder.cpp:441`-`461`):
not end-of-stream, a known non-empty G0/G1, Z unchanged unless 3d arcs are
allowed, all six offsets unchanged, absolute XYZ, the extrusion-phase test
(while Building: current extruding, or both retracting), unchanged extruder
mode, and (while Building) unchanged feedrate and feature tag. -/
def arc_eligible (allow_3d_arcs is_end waiting : Bool) (cmd : parsed_command)
    (pre cur : position) : Bool :=
  !is_end && cmd.is_known_command && !cmd.is_empty &&
  ((cmd.command == "G0" || cmd.command == "G1") &&
   (allow_3d_arcs || cur.z == pre.z) &&
   cur.x_offset == pre.x_offset &&
   cur.y_offset == pre.y_offset &&
   cur.z_offset == pre.z_offset &&
   cur.x_firmware_offset == pre.x_firmware_offset &&
   cur.y_firmware_offset == pre.y_firmware_offset &&
   cur.z_firmware_offset == pre.z_firmware_offset &&
   !cur.is_relative &&
   (!waiting || cur.extr.is_extruding ||
     (pre.extr.is_retracting && cur.extr.is_retracting)) &&
   (cur.is_extruder_relative == pre.is_extruder_relative) &&
   (!waiting || pre.f == cur.f) &&
   (!waiting || pre.feature_type_tag == cur.feature_type_tag))

/-- The eligible branch of `process_gcode` (`arc_welder.cpp:462`-`503`):
when Idle, record the previous extruder mode, flush the buffer and seed the
engine with the previous point (the seed's acceptance flag is discarded, as
in the source); then offer the current point; on acceptance from Idle,
enter Building and record the previous feedrate.  Returns the new state and
`arc_added`. -/
def eligible_branch {σ : Type} (cfg : Config σ) (st : WelderState σ)
    (pre cur : position) (movement_length_mm : ℚ) : WelderState σ × Bool :=
  let st₁ :=
    if !st.waiting_for_arc then
      let stA := { st with previous_is_extruder_relative := pre.is_extruder_relative }
      let stB := write_unwritten_gcodes stA
      let previous_p : printer_point :=
        ⟨pre.get_gcode_x, pre.get_gcode_y, pre.get_gcode_z, pre.extr.e_relative, 0⟩
      { stB with arc := (cfg.engine.try_add_point stB.arc previous_p).1 }
    else st
  let p : printer_point :=
    ⟨cur.get_gcode_x, cur.get_gcode_y, cur.get_gcode_z, cur.extr.e_relative,
      movement_length_mm⟩
  let r := cfg.engine.try_add_point st₁.arc p
  let st₂ := { st₁ with arc := r.1 }
  let st₃ :=
    if r.2 && !st₂.waiting_for_arc then
      { st₂ with waiting_for_arc := true, previous_feedrate := pre.f }
    else st₂
  (st₃, r.2)

/-- The tail of `process_gcode` (`arc_welder.cpp:643`-`653`): append the
current line to the commit buffer when Building or when the point was not
absorbed, and flush the buffer when Idle. -/
def finish_step {σ : Type} (st : WelderState σ) (arc_added : Bool)
    (movement_length_mm : ℚ) : WelderState σ :=
  let st₁ :=
    if st.waiting_for_arc || !arc_added then
      { st with unwritten_commands :=
          st.unwritten_commands ++ [unwritten_command.of st.tracker.cur movement_length_mm] }
    else st
  if !st₁.waiting_for_arc then write_unwritten_gcodes st₁ else st₁

/-- The head of `process_gcode` (`arc_welder.cpp:386`-`415`): update the
position tracker and record the source-side movement statistics (when the
XY position changed with an extrusion-state change, the movement is
positive, and this is not the reprocessing pass).  Returns the updated
state and `movement_length_mm`. -/
def source_stats_phase {σ : Type} (cfg : Config σ) (st : WelderState σ)
    (cmd : parsed_command) (is_reprocess : Bool) : WelderState σ × ℚ :=
  let st := { st with tracker := tracker_update cfg.update_fn st.tracker cmd }
  let cur := st.tracker.cur
  let pre := st.tracker.prev
  let has_e_changed := cur.extr.is_extruding || cur.extr.is_retracting
  let movement_length_mm : ℚ :=
    if cur.has_xy_position_changed && has_e_changed then
      (if cfg.allow_3d_arcs then cfg.dist3 pre cur else cfg.dist2 pre cur)
    else 0
  let st :=
    if movement_length_mm > 0 ∧ is_reprocess = false then
      { st with stats := st.stats ++ [(movement_length_mm, true)] }
    else st
  (st, movement_length_mm)

/-- The dynamic-precision block of `process_gcode`
(`arc_welder.cpp:420`-`436`): on a G0/G1 with dynamic precision enabled,
let the engine raise its serialization precision from the command. -/
def precision_phase {σ : Type} (cfg : Config σ) (st : WelderState σ)
    (cmd : parsed_command) : WelderState σ :=
  if cfg.allow_dynamic_precision && (cmd.command == "G0" || cmd.command == "G1") then
    { st with arc := cfg.engine.update_precision st.arc cmd }
  else st

/-- The eligibility test and point offer of `process_gcode`
(`arc_welder.cpp:441`-`503`): when the command is arc-eligible, run the
`eligible_branch`; otherwise the state is unchanged and `arc_added` is
false. -/
def offer_phase {σ : Type} (cfg : Config σ) (st : WelderState σ)
    (cmd : parsed_command) (is_end : Bool) (pre cur : position)
    (movement_length_mm : ℚ) : WelderState σ × Bool :=
  if arc_eligible cfg.allow_3d_arcs is_end st.waiting_for_arc cmd pre cur then
    eligible_branch cfg st pre cur movement_length_mm
  else (st, false)

/-- The commit-or-abort block of `process_gcode` (`arc_welder.cpp:584`-`653`):
when the point was not absorbed and the line is not an empty command with
an empty comment — too-few-segments candidates are cleared; a Building
candidate that is a valid shape is committed (counters updated,
`write_arc_gcodes`), returning `true` at the
`return process_gcode(cmd, false, true)` site (`arc_welder.cpp:614`) when
not end-of-stream (at end-of-stream the source returns right after the
commit, skipping the buffer append and flush, as does the commit path
here); a Building candidate that is not a valid shape is cleared.  All
non-commit paths fall through to `finish_step`. -/
def commit_or_flush {σ : Type} (cfg : Config σ) (st : WelderState σ)
    (cmd : parsed_command) (arc_added is_end : Bool) (pre : position)
    (movement_length_mm : ℚ) : WelderState σ × Bool :=
  if !arc_added && !(cmd.is_empty && cmd.comment.length == 0) then
    if cfg.engine.get_num_segments st.arc < cfg.engine.min_segments then
      (finish_step { st with waiting_for_arc := false, arc := cfg.engine.clear st.arc }
        arc_added movement_length_mm, false)
    else if st.waiting_for_arc then
      if cfg.engine.is_shape st.arc then
        let n := cfg.engine.get_num_segments st.arc
        let st := { st with
          points_compressed := st.points_compressed + ((n : ℤ) - 1)
          arcs_created := st.arcs_created + 1
          arc_events := st.arc_events ++ [n] }
        let st := write_arc_gcodes cfg st pre.is_extruder_relative pre.f
        (st, !is_end)
      else
        (finish_step { st with arc := cfg.engine.clear st.arc, waiting_for_arc := false }
          arc_added movement_length_mm, false)
    else (finish_step st arc_added movement_length_mm, false)
  else (finish_step st arc_added movement_length_mm, false)

/-- One pass of `process_gcode` (`arc_welder.cpp:377`) without the
recursive re-entry: update the tracker and record source statistics
(`source_stats_phase`), apply dynamic precision (`precision_phase`), test
eligibility and offer the point (`offer_phase`), then the commit-or-abort
block (`commit_or_flush`).  The boolean result is `true` exactly when a
commit happened and this is not end-of-stream, i.e. at the
`return process_gcode(cmd, false, true)` site. -/
def process_gcode_step {σ : Type} (cfg : Config σ) (st : WelderState σ)
    (cmd : parsed_command) (is_end is_reprocess : Bool) : WelderState σ × Bool :=
  let r0 := source_stats_phase cfg st cmd is_reprocess
  let movement_length_mm := r0.2
  let stp := precision_phase cfg r0.1 cmd
  let cur := stp.tracker.cur
  let pre := stp.tracker.prev
  let r := offer_phase cfg stp cmd is_end pre cur movement_length_mm
  commit_or_flush cfg r.1 cmd r.2 is_end pre movement_length_mm

/-- Source `process_gcode` with explicit fuel for the re-entry recursion: when the
single pass requests a reprocess (commit of a shaped arc, not end-of-stream)
the same command is processed again with `is_reprocess = true`.  `none`
would mean the fuel bound was exceeded; the theorems show fuel 2 always
suffices, matching the source's guarantee of a single re-entry. -/
def process_gcodeF {σ : Type} (cfg : Config σ) : Nat → WelderState σ →
    parsed_command → Bool → Bool → Option (WelderState σ)
  | fuel, st, cmd, is_end, is_reprocess =>
    let r := process_gcode_step cfg st cmd is_end is_reprocess
    if r.2 then
      match fuel with
      | 0 => none
      | n + 1 =>
        process_gcodeF cfg n
          { r.1 with reprocess_count := r.1.reprocess_count + 1 } cmd false true
    else some r.1

/-- Source `process_gcode` as called by the main loop (fuel 2; the fuel is never
exhausted, see the re-entry theorem). -/
def process_gcode_run {σ : Type} (cfg : Config σ) (st : WelderState σ)
    (cmd : parsed_command) (is_end : Bool) : WelderState σ :=
  (process_gcodeF cfg 2 st cmd is_end false).getD st

/-- The controller state at the start of `process()` after `reset()`:
fresh counters, Idle, empty buffers, the constructor's engine state, and
the header block already written (`add_arcwelder_comment_to_target`). -/
def initial_state {σ : Type} (cfg : Config σ) (p0 : position) : WelderState σ :=
  { tracker := { cur := p0, prev := p0, older := [] }
    arc := cfg.arc0
    waiting_for_arc := false
    previous_feedrate := -1
    previous_is_extruder_relative := false
    lines_processed := 0
    gcodes_processed := 0
    points_compressed := 0
    arcs_created := 0
    unwritten_commands := []
    output := [cfg.header_text]
    stats := []
    arc_events := []
    undo_count := 0
    commit_count := 0
    reprocess_count := 0 }

/-- A run of the controller over a list of parsed commands (each processed
with `is_end = false`, as in the main loop). -/
def run {σ : Type} (cfg : Config σ) (st : WelderState σ)
    (cmds : List parsed_command) : WelderState σ :=
  cmds.foldl (fun s c => process_gcode_run cfg s c false) st

/-- The structured result of `process()` (`arc_welder_results`).
Modelled from the spec: the struct itself lives in `arc_welder.h`; per the
spec the open-failure paths return `{success:false, cancelled:false}`, so
the default-constructed `cancelled` is `false` and the default message is
empty. -/
structure arc_welder_results where
  success : Bool
  cancelled : Bool
  message : String
deriving DecidableEq, Repr

/-- The progress snapshot built by `get_progress_` (`arc_welder_progress`).
Modelled from the spec: the struct lives in `arc_welder.h`; the
compression fields default to 0 and "retain their default values" unless
assigned.  `compression_rate` models the C++ `compression_ratio` field
(renamed here).  `target_file_size` is the byte size of the output written
so far (`output_file_.tellp()`), each written line costing its length plus
a newline. -/
structure arc_welder_progress where
  lines_processed : Nat
  gcodes_processed : Nat
  points_compressed : ℤ
  arcs_created : Nat
  source_file_position : ℤ
  source_file_size : ℤ
  target_file_size : ℤ
  percent_complete : ℚ
  seconds_elapsed : ℚ
  seconds_remaining : ℚ
  compression_rate : ℚ
  compression_percent : ℚ
  num_firmware_compensations : Nat
deriving DecidableEq, Repr

/-- The default (header-initialized) value of the compression-ratio field. -/
def default_compression_rate : ℚ := 0

/-- The default (header-initialized) value of `compression_percent`. -/
def default_compression_percent : ℚ := 0

/-- The size in bytes of the output written so far (`output_file_.tellp()`):
every line is written followed by one newline. -/
def output_size {σ : Type} (st : WelderState σ) : ℤ :=
  (((st.output.map (fun l => l.length + 1)).sum : ℕ) : ℤ)

/-- Source `get_progress_` (`arc_welder.cpp:351`): copy the counters, compute the
percentage and timing estimates, and assign the two compression fields only
when `source_file_position > 0` (`arc_welder.cpp:367`-`370`), leaving their
defaults otherwise.  The wall-clock inputs are passed in; `ℚ` division is
total where the C++ doubles would divide by zero. -/
def get_progress {σ : Type} (st : WelderState σ) (num_firmware_compensations : Nat)
    (source_file_position : ℤ) (file_size : ℤ) (seconds_elapsed : ℚ) :
    arc_welder_progress :=
  let target_size : ℤ := output_size st
  { lines_processed := st.lines_processed
    gcodes_processed := st.gcodes_processed
    points_compressed := st.points_compressed
    arcs_created := st.arcs_created
    source_file_position := source_file_position
    source_file_size := file_size
    target_file_size := target_size
    percent_complete := (source_file_position : ℚ) / (file_size : ℚ) * 100
    seconds_elapsed := seconds_elapsed
    seconds_remaining :=
      ((file_size - source_file_position : ℤ) : ℚ) /
        ((source_file_position : ℚ) / seconds_elapsed)
    compression_rate :=
      if source_file_position > 0 then
        (source_file_position : ℚ) / (target_size : ℚ)
      else default_compression_rate
    compression_percent :=
      if source_file_position > 0 then
        (1 - (target_size : ℚ) / (source_file_position : ℚ)) * 100
      else default_compression_percent
    num_firmware_compensations := num_firmware_compensations }

/-- The body of one main-loop iteration (`arc_welder.cpp:266`-`291`):
count the line, count it as a gcode when the parse found a command, and
run `process_gcode`. -/
def loop_body {σ : Type} (cfg : Config σ) (st : WelderState σ)
    (l : parsed_command) : WelderState σ :=
  let st := { st with lines_processed := st.lines_processed + 1 }
  let has_gcode := l.gcode.length > 0
  let st := if has_gcode then { st with gcodes_processed := st.gcodes_processed + 1 }
            else st
  process_gcode_run cfg st l false

/-- The progress-update tail of one main-loop iteration
(`arc_welder.cpp:294`-`305`): when the line had a command and the
notification timer fired, the continue flag becomes the callback's
answer. -/
def loop_cont {σ : Type} (cfg : Config σ) (st : WelderState σ)
    (l : parsed_command) (cont : Bool) : Bool :=
  if l.gcode.length > 0 && cfg.clock_check st.lines_processed then
    cfg.progress_cb st.lines_processed
  else cont

/-- The main read loop of `process()` (`arc_welder.cpp:264`-`306`).  The
source is a list of pre-parsed commands (the external parser is the
identity of this list).  The loop condition is
`std::getline(gcodeFile, line) && continue_processing`: a line is consumed
from the source *before* the cancellation flag is tested, so cancellation
discards one pending line without processing it.  Returns the state, the
continue flag, the unread remainder of the source, and the last parsed
command (`cmd` survives the loop and is reused at end-of-stream). -/
def process_loop {σ : Type} (cfg : Config σ) :
    List parsed_command → WelderState σ → Bool → parsed_command →
    WelderState σ × Bool × List parsed_command × parsed_command
  | [], st, cont, last => (st, cont, [], last)
  | l :: rest, st, cont, last =>
    if !cont then (st, cont, rest, last)
    else
      process_loop cfg rest (loop_body cfg st l)
        (loop_cont cfg (loop_body cfg st l) l cont) l

/-- The end-of-stream handling of `process()` (`arc_welder.cpp:308`-`314`):
when the engine holds a shape and the controller is Building, re-run the
*last parsed command* with `is_end = true`; then flush all unwritten
commands. -/
def process_end {σ : Type} (cfg : Config σ) (st : WelderState σ)
    (last : parsed_command) : WelderState σ :=
  let st₁ :=
    if cfg.engine.is_shape st.arc && st.waiting_for_arc then
      process_gcode_run cfg st last true
    else st
  write_unwritten_gcodes st₁

/-- The observable outcome of `process()`: the structured results, the
final controller state, the unread remainder of the source, whether the
target file was ever opened, and whether each file is still open at
return. -/
structure ProcessOutcome (σ : Type) where
  results : arc_welder_results
  st : WelderState σ
  remaining : List parsed_command
  target_opened : Bool
  source_open : Bool
  target_open : Bool

/-- Source `process()` (`arc_welder.cpp:186`-`335`): open the source (failure
returns `"Unable to open the source file."` without touching the target),
open the target (failure returns `"Unable to open the target file."` with
the source closed), write the header, send the initial progress update
(whose result can already cancel), run the main loop, run the end-of-stream
handling, close both files, and report `success = continue_processing`,
`cancelled = !continue_processing`.  `source_ok` / `target_ok` say whether
the two `open` calls succeed. -/
def process_model {σ : Type} (cfg : Config σ) (source_ok target_ok : Bool)
    (p0 : position) (lines : List parsed_command) : ProcessOutcome σ :=
  if !source_ok then
    { results := { success := false, cancelled := false
                   message := "Unable to open the source file." }
      st := initial_state cfg p0
      remaining := lines
      target_opened := false, source_open := false, target_open := false }
  else if !target_ok then
    { results := { success := false, cancelled := false
                   message := "Unable to open the target file." }
      st := initial_state cfg p0
      remaining := lines
      target_opened := false, source_open := false, target_open := false }
  else
    let st0 := initial_state cfg p0
    let cont0 := cfg.progress_cb 0
    let r := process_loop cfg lines st0 cont0 parsed_command.cleared
    let st1 := r.1
    let cont1 := r.2.1
    let rem := r.2.2.1
    let last := r.2.2.2
    let st2 := process_end cfg st1 last
    { results := { success := cont1, cancelled := !cont1, message := "" }
      st := st2
      remaining := rem
      target_opened := true, source_open := false, target_open := false }

/-! ## Spec-side definitions (for refinement comparisons)

The next definitions follow the *spec's words*, not the source; they exist
only to be compared with the source-derived definitions above. -/

/-- Spec-side (spec §4.2 step 3): the extrusion-phase rule as the claims
state it — eligible only when both commands are extruding or both are
retracting. -/
def phase_match_spec (pre cur : position) : Bool :=
  (pre.extr.is_extruding && cur.extr.is_extruding) ||
  (pre.extr.is_retracting && cur.extr.is_retracting)

/-- Spec-side helper: the distinct elements of a list, keeping the first
occurrence of each, in order. -/
def distinct_keep_first (l : List String) : List String :=
  l.foldl (fun acc c => if c ∈ acc then acc else acc ++ [c]) []

/-- Spec-side (spec §4.2 "Comment synthesis" as the claim states it): the
distinct non-empty comments of the absorbed commands, in order, joined by
`" - "`. -/
def comment_spec (comments : List String) : String :=
  String.intercalate " - " (distinct_keep_first (comments.filter (fun c => c.length > 0)))

/-! ## A concrete engine instance

A computable instance of the external-collaborator interfaces, used to
evaluate the controller on concrete inputs (witnesses and
counterexamples).  The claims' theorems quantify over every instance; the
concrete one only instantiates them. -/

/-- Modelled from the spec: a minimal concrete arc-engine instance for
concrete evaluation.  Its state is the count of accepted points; it accepts
every offered point (as the real engine does for points sampled from one
circle within tolerance), is a shape from `min_segments = 3` points on
(spec §4.1 "Shape readiness" with the firmware-compensation floor off),
and serializes a fixed arc line. -/
def count_engine : ArcEngine Nat :=
  { try_add_point := fun s _ => (s + 1, true)
    get_num_segments := fun s => s
    min_segments := 3
    is_shape := fun s => decide (3 ≤ s)
    clear := fun _ => 0
    get_shape_length := fun s => (s : ℚ)
    update_precision := fun s _ => s
    get_shape_gcode_relative := fun _ _ => "G3 X0 Y10 I-10 J0 E0.36"
    get_shape_gcode_absolute := fun _ _ _ => "G3 X0 Y10 I-10 J0 E0.36" }

/-- A concrete configuration over `count_engine`.  The modal interpreter
stores the processed command into the position (keeping the geometric
fields), the notification timer always fires, and the callback always says
continue. -/
def mcfg : Config Nat :=
  { allow_3d_arcs := false
    allow_dynamic_precision := false
    engine := count_engine
    arc0 := 0
    update_fn := fun p c => { p with command := c }
    dist2 := fun _ _ => 0
    dist3 := fun _ _ => 0
    clock_check := fun _ => true
    progress_cb := fun _ => true
    header_text := "; Postprocessed by ArcWelder" }

/-- A concrete extruder snapshot: steadily extruding. -/
def extruding_extruder : extruder_state :=
  { is_extruding := true, is_retracting := false, e_relative := 1, e := 1, offset_e := 1 }

/-- A concrete extruder snapshot: retracting. -/
def retracting_extruder : extruder_state :=
  { is_extruding := false, is_retracting := true, e_relative := -1, e := 1, offset_e := 1 }

/-- A concrete base position: absolute modes, no offsets, feedrate 1500. -/
def base_position : position :=
  { x := 10, y := 0, z := 2
    x_offset := 0, y_offset := 0, z_offset := 0
    x_firmware_offset := 0, y_firmware_offset := 0, z_firmware_offset := 0
    is_relative := false
    is_extruder_relative := false
    f := 1500
    feature_type_tag := "perimeter"
    has_xy_position_changed := true
    extr := extruding_extruder
    command := parsed_command.cleared }

/-- A concrete eligible G1 command. -/
def g1_command : parsed_command :=
  { command := "G1", gcode := "G1 X9.94 Y1.04 E0.01", comment := ""
    is_empty := false, is_known_command := true }

/-- A concrete non-G0/G1 known command (breaks any arc). -/
def m104_command : parsed_command :=
  { command := "M104", gcode := "M104 S200", comment := ""
    is_empty := false, is_known_command := true }

/-- A concrete empty source line (blank line: empty command, no comment). -/
def blank_command : parsed_command :=
  { command := "", gcode := "", comment := ""
    is_empty := true, is_known_command := false }

/-! ## Frame lemmas

Projection facts about each controller operation, used by the claim
theorems: which state fields each operation can and cannot change. -/

section FrameLemmas

variable {σ : Type}

@[simp] theorem wug_unwritten (st : WelderState σ) :
    (write_unwritten_gcodes st).unwritten_commands = [] := rfl

@[simp] theorem wug_output (st : WelderState σ) :
    (write_unwritten_gcodes st).output =
      st.output ++ st.unwritten_commands.map unwritten_command.to_string := rfl

@[simp] theorem wug_waiting (st : WelderState σ) :
    (write_unwritten_gcodes st).waiting_for_arc = st.waiting_for_arc := rfl

@[simp] theorem wug_arc (st : WelderState σ) :
    (write_unwritten_gcodes st).arc = st.arc := rfl

@[simp] theorem wug_tracker (st : WelderState σ) :
    (write_unwritten_gcodes st).tracker = st.tracker := rfl

@[simp] theorem wug_commit (st : WelderState σ) :
    (write_unwritten_gcodes st).commit_count = st.commit_count := rfl

@[simp] theorem wug_undo (st : WelderState σ) :
    (write_unwritten_gcodes st).undo_count = st.undo_count := rfl

@[simp] theorem wug_reprocess (st : WelderState σ) :
    (write_unwritten_gcodes st).reprocess_count = st.reprocess_count := rfl

@[simp] theorem wug_lines (st : WelderState σ) :
    (write_unwritten_gcodes st).lines_processed = st.lines_processed := rfl

@[simp] theorem wug_gcodes (st : WelderState σ) :
    (write_unwritten_gcodes st).gcodes_processed = st.gcodes_processed := rfl

@[simp] theorem wug_points (st : WelderState σ) :
    (write_unwritten_gcodes st).points_compressed = st.points_compressed := rfl

@[simp] theorem wug_arcs (st : WelderState σ) :
    (write_unwritten_gcodes st).arcs_created = st.arcs_created := rfl

@[simp] theorem wug_events (st : WelderState σ) :
    (write_unwritten_gcodes st).arc_events = st.arc_events := rfl

@[simp] theorem finish_commit (st : WelderState σ) (a : Bool) (m : ℚ) :
    (finish_step st a m).commit_count = st.commit_count := by
  unfold finish_step; repeat' split <;> simp

@[simp] theorem finish_undo (st : WelderState σ) (a : Bool) (m : ℚ) :
    (finish_step st a m).undo_count = st.undo_count := by
  unfold finish_step; repeat' split <;> simp

@[simp] theorem finish_reprocess (st : WelderState σ) (a : Bool) (m : ℚ) :
    (finish_step st a m).reprocess_count = st.reprocess_count := by
  unfold finish_step; repeat' split <;> simp

@[simp] theorem finish_lines (st : WelderState σ) (a : Bool) (m : ℚ) :
    (finish_step st a m).lines_processed = st.lines_processed := by
  unfold finish_step; repeat' split <;> simp

@[simp] theorem finish_gcodes (st : WelderState σ) (a : Bool) (m : ℚ) :
    (finish_step st a m).gcodes_processed = st.gcodes_processed := by
  unfold finish_step; repeat' split <;> simp

@[simp] theorem finish_points (st : WelderState σ) (a : Bool) (m : ℚ) :
    (finish_step st a m).points_compressed = st.points_compressed := by
  unfold finish_step; repeat' split <;> simp

@[simp] theorem finish_arcs (st : WelderState σ) (a : Bool) (m : ℚ) :
    (finish_step st a m).arcs_created = st.arcs_created := by
  unfold finish_step; repeat' split <;> simp

@[simp] theorem finish_events (st : WelderState σ) (a : Bool) (m : ℚ) :
    (finish_step st a m).arc_events = st.arc_events := by
  unfold finish_step; repeat' split <;> simp

@[simp] theorem finish_waiting (st : WelderState σ) (a : Bool) (m : ℚ) :
    (finish_step st a m).waiting_for_arc = st.waiting_for_arc := by
  unfold finish_step; repeat' split <;> simp

@[simp] theorem finish_arc (st : WelderState σ) (a : Bool) (m : ℚ) :
    (finish_step st a m).arc = st.arc := by
  unfold finish_step; repeat' split <;> simp

@[simp] theorem write_arc_commit (cfg : Config σ) (st : WelderState σ) (r : Bool) (f : ℚ) :
    (write_arc_gcodes cfg st r f).commit_count = st.commit_count + 1 := by
  simp [write_arc_gcodes, write_gcode]

@[simp] theorem write_arc_undo (cfg : Config σ) (st : WelderState σ) (r : Bool) (f : ℚ) :
    (write_arc_gcodes cfg st r f).undo_count = st.undo_count + 1 := by
  simp [write_arc_gcodes, write_gcode]

@[simp] theorem write_arc_reprocess (cfg : Config σ) (st : WelderState σ) (r : Bool) (f : ℚ) :
    (write_arc_gcodes cfg st r f).reprocess_count = st.reprocess_count := by
  simp [write_arc_gcodes, write_gcode]

@[simp] theorem write_arc_lines (cfg : Config σ) (st : WelderState σ) (r : Bool) (f : ℚ) :
    (write_arc_gcodes cfg st r f).lines_processed = st.lines_processed := by
  simp [write_arc_gcodes, write_gcode]

@[simp] theorem write_arc_gcodes_processed (cfg : Config σ) (st : WelderState σ) (r : Bool) (f : ℚ) :
    (write_arc_gcodes cfg st r f).gcodes_processed = st.gcodes_processed := by
  simp [write_arc_gcodes, write_gcode]

@[simp] theorem write_arc_points (cfg : Config σ) (st : WelderState σ) (r : Bool) (f : ℚ) :
    (write_arc_gcodes cfg st r f).points_compressed = st.points_compressed := by
  simp [write_arc_gcodes, write_gcode]

@[simp] theorem write_arc_arcs (cfg : Config σ) (st : WelderState σ) (r : Bool) (f : ℚ) :
    (write_arc_gcodes cfg st r f).arcs_created = st.arcs_created := by
  simp [write_arc_gcodes, write_gcode]

@[simp] theorem write_arc_events (cfg : Config σ) (st : WelderState σ) (r : Bool) (f : ℚ) :
    (write_arc_gcodes cfg st r f).arc_events = st.arc_events := by
  simp [write_arc_gcodes, write_gcode]

@[simp] theorem write_arc_waiting (cfg : Config σ) (st : WelderState σ) (r : Bool) (f : ℚ) :
    (write_arc_gcodes cfg st r f).waiting_for_arc = false := by
  simp [write_arc_gcodes, write_gcode]

@[simp] theorem ssp_commit (cfg : Config σ) (st : WelderState σ) (cmd : parsed_command) (rp : Bool) :
    (source_stats_phase cfg st cmd rp).1.commit_count = st.commit_count := by
  simp [source_stats_phase, apply_ite WelderState.commit_count]

@[simp] theorem ssp_undo (cfg : Config σ) (st : WelderState σ) (cmd : parsed_command) (rp : Bool) :
    (source_stats_phase cfg st cmd rp).1.undo_count = st.undo_count := by
  simp [source_stats_phase, apply_ite WelderState.undo_count]

@[simp] theorem ssp_reprocess (cfg : Config σ) (st : WelderState σ) (cmd : parsed_command) (rp : Bool) :
    (source_stats_phase cfg st cmd rp).1.reprocess_count = st.reprocess_count := by
  simp [source_stats_phase, apply_ite WelderState.reprocess_count]

@[simp] theorem ssp_lines (cfg : Config σ) (st : WelderState σ) (cmd : parsed_command) (rp : Bool) :
    (source_stats_phase cfg st cmd rp).1.lines_processed = st.lines_processed := by
  simp [source_stats_phase, apply_ite WelderState.lines_processed]

@[simp] theorem ssp_gcodes (cfg : Config σ) (st : WelderState σ) (cmd : parsed_command) (rp : Bool) :
    (source_stats_phase cfg st cmd rp).1.gcodes_processed = st.gcodes_processed := by
  simp [source_stats_phase, apply_ite WelderState.gcodes_processed]

@[simp] theorem ssp_points (cfg : Config σ) (st : WelderState σ) (cmd : parsed_command) (rp : Bool) :
    (source_stats_phase cfg st cmd rp).1.points_compressed = st.points_compressed := by
  simp [source_stats_phase, apply_ite WelderState.points_compressed]

@[simp] theorem ssp_arcs (cfg : Config σ) (st : WelderState σ) (cmd : parsed_command) (rp : Bool) :
    (source_stats_phase cfg st cmd rp).1.arcs_created = st.arcs_created := by
  simp [source_stats_phase, apply_ite WelderState.arcs_created]

@[simp] theorem ssp_events (cfg : Config σ) (st : WelderState σ) (cmd : parsed_command) (rp : Bool) :
    (source_stats_phase cfg st cmd rp).1.arc_events = st.arc_events := by
  simp [source_stats_phase, apply_ite WelderState.arc_events]

@[simp] theorem ssp_waiting (cfg : Config σ) (st : WelderState σ) (cmd : parsed_command) (rp : Bool) :
    (source_stats_phase cfg st cmd rp).1.waiting_for_arc = st.waiting_for_arc := by
  simp [source_stats_phase, apply_ite WelderState.waiting_for_arc]

@[simp] theorem ssp_arc (cfg : Config σ) (st : WelderState σ) (cmd : parsed_command) (rp : Bool) :
    (source_stats_phase cfg st cmd rp).1.arc = st.arc := by
  simp [source_stats_phase, apply_ite WelderState.arc]

@[simp] theorem ssp_unwritten (cfg : Config σ) (st : WelderState σ) (cmd : parsed_command) (rp : Bool) :
    (source_stats_phase cfg st cmd rp).1.unwritten_commands = st.unwritten_commands := by
  simp [source_stats_phase, apply_ite WelderState.unwritten_commands]

@[simp] theorem ssp_output (cfg : Config σ) (st : WelderState σ) (cmd : parsed_command) (rp : Bool) :
    (source_stats_phase cfg st cmd rp).1.output = st.output := by
  simp [source_stats_phase, apply_ite WelderState.output]

@[simp] theorem ssp_tracker (cfg : Config σ) (st : WelderState σ) (cmd : parsed_command) (rp : Bool) :
    (source_stats_phase cfg st cmd rp).1.tracker = tracker_update cfg.update_fn st.tracker cmd := by
  simp [source_stats_phase, apply_ite WelderState.tracker]

@[simp] theorem pp_commit (cfg : Config σ) (st : WelderState σ) (cmd : parsed_command) :
    (precision_phase cfg st cmd).commit_count = st.commit_count := by
  unfold precision_phase; split <;> simp

@[simp] theorem pp_undo (cfg : Config σ) (st : WelderState σ) (cmd : parsed_command) :
    (precision_phase cfg st cmd).undo_count = st.undo_count := by
  unfold precision_phase; split <;> simp

@[simp] theorem pp_reprocess (cfg : Config σ) (st : WelderState σ) (cmd : parsed_command) :
    (precision_phase cfg st cmd).reprocess_count = st.reprocess_count := by
  unfold precision_phase; split <;> simp

@[simp] theorem pp_lines (cfg : Config σ) (st : WelderState σ) (cmd : parsed_command) :
    (precision_phase cfg st cmd).lines_processed = st.lines_processed := by
  unfold precision_phase; split <;> simp

@[simp] theorem pp_gcodes (cfg : Config σ) (st : WelderState σ) (cmd : parsed_command) :
    (precision_phase cfg st cmd).gcodes_processed = st.gcodes_processed := by
  unfold precision_phase; split <;> simp

@[simp] theorem pp_points (cfg : Config σ) (st : WelderState σ) (cmd : parsed_command) :
    (precision_phase cfg st cmd).points_compressed = st.points_compressed := by
  unfold precision_phase; split <;> simp

@[simp] theorem pp_arcs (cfg : Config σ) (st : WelderState σ) (cmd : parsed_command) :
    (precision_phase cfg st cmd).arcs_created = st.arcs_created := by
  unfold precision_phase; split <;> simp

@[simp] theorem pp_events (cfg : Config σ) (st : WelderState σ) (cmd : parsed_command) :
    (precision_phase cfg st cmd).arc_events = st.arc_events := by
  unfold precision_phase; split <;> simp

@[simp] theorem pp_waiting (cfg : Config σ) (st : WelderState σ) (cmd : parsed_command) :
    (precision_phase cfg st cmd).waiting_for_arc = st.waiting_for_arc := by
  unfold precision_phase; split <;> simp

@[simp] theorem pp_tracker (cfg : Config σ) (st : WelderState σ) (cmd : parsed_command) :
    (precision_phase cfg st cmd).tracker = st.tracker := by
  unfold precision_phase; split <;> simp

@[simp] theorem pp_unwritten (cfg : Config σ) (st : WelderState σ) (cmd : parsed_command) :
    (precision_phase cfg st cmd).unwritten_commands = st.unwritten_commands := by
  unfold precision_phase; split <;> simp

@[simp] theorem pp_output (cfg : Config σ) (st : WelderState σ) (cmd : parsed_command) :
    (precision_phase cfg st cmd).output = st.output := by
  unfold precision_phase; split <;> simp

@[simp] theorem eb_commit (cfg : Config σ) (st : WelderState σ) (pre cur : position) (m : ℚ) :
    (eligible_branch cfg st pre cur m).1.commit_count = st.commit_count := by
  unfold eligible_branch; repeat' split <;> simp

@[simp] theorem eb_undo (cfg : Config σ) (st : WelderState σ) (pre cur : position) (m : ℚ) :
    (eligible_branch cfg st pre cur m).1.undo_count = st.undo_count := by
  unfold eligible_branch; repeat' split <;> simp

@[simp] theorem eb_reprocess (cfg : Config σ) (st : WelderState σ) (pre cur : position) (m : ℚ) :
    (eligible_branch cfg st pre cur m).1.reprocess_count = st.reprocess_count := by
  unfold eligible_branch; repeat' split <;> simp

@[simp] theorem eb_lines (cfg : Config σ) (st : WelderState σ) (pre cur : position) (m : ℚ) :
    (eligible_branch cfg st pre cur m).1.lines_processed = st.lines_processed := by
  unfold eligible_branch; repeat' split <;> simp

@[simp] theorem eb_gcodes (cfg : Config σ) (st : WelderState σ) (pre cur : position) (m : ℚ) :
    (eligible_branch cfg st pre cur m).1.gcodes_processed = st.gcodes_processed := by
  unfold eligible_branch; repeat' split <;> simp

@[simp] theorem eb_points (cfg : Config σ) (st : WelderState σ) (pre cur : position) (m : ℚ) :
    (eligible_branch cfg st pre cur m).1.points_compressed = st.points_compressed := by
  unfold eligible_branch; repeat' split <;> simp

@[simp] theorem eb_arcs (cfg : Config σ) (st : WelderState σ) (pre cur : position) (m : ℚ) :
    (eligible_branch cfg st pre cur m).1.arcs_created = st.arcs_created := by
  unfold eligible_branch; repeat' split <;> simp

@[simp] theorem eb_events (cfg : Config σ) (st : WelderState σ) (pre cur : position) (m : ℚ) :
    (eligible_branch cfg st pre cur m).1.arc_events = st.arc_events := by
  unfold eligible_branch; repeat' split <;> simp

@[simp] theorem eb_tracker (cfg : Config σ) (st : WelderState σ) (pre cur : position) (m : ℚ) :
    (eligible_branch cfg st pre cur m).1.tracker = st.tracker := by
  unfold eligible_branch; repeat' split <;> simp

/-- The `eligible_branch` leaves the Building flag alone when the point was not
accepted (the flag is set only under `arc_added`). -/
theorem eb_waiting_of_not_added (cfg : Config σ) (st : WelderState σ)
    (pre cur : position) (m : ℚ) (h : (eligible_branch cfg st pre cur m).2 = false) :
    (eligible_branch cfg st pre cur m).1.waiting_for_arc = st.waiting_for_arc := by
  unfold eligible_branch at *
  repeat' split at h <;> simp_all

end FrameLemmas

section StepCases

variable {σ : Type}

@[simp] theorem op_commit (cfg : Config σ) (st : WelderState σ) (cmd : parsed_command)
    (e : Bool) (pre cur : position) (m : ℚ) :
    (offer_phase cfg st cmd e pre cur m).1.commit_count = st.commit_count := by
  unfold offer_phase; split <;> simp

@[simp] theorem op_undo (cfg : Config σ) (st : WelderState σ) (cmd : parsed_command)
    (e : Bool) (pre cur : position) (m : ℚ) :
    (offer_phase cfg st cmd e pre cur m).1.undo_count = st.undo_count := by
  unfold offer_phase; split <;> simp

@[simp] theorem op_reprocess (cfg : Config σ) (st : WelderState σ) (cmd : parsed_command)
    (e : Bool) (pre cur : position) (m : ℚ) :
    (offer_phase cfg st cmd e pre cur m).1.reprocess_count = st.reprocess_count := by
  unfold offer_phase; split <;> simp

@[simp] theorem op_lines (cfg : Config σ) (st : WelderState σ) (cmd : parsed_command)
    (e : Bool) (pre cur : position) (m : ℚ) :
    (offer_phase cfg st cmd e pre cur m).1.lines_processed = st.lines_processed := by
  unfold offer_phase; split <;> simp

@[simp] theorem op_gcodes (cfg : Config σ) (st : WelderState σ) (cmd : parsed_command)
    (e : Bool) (pre cur : position) (m : ℚ) :
    (offer_phase cfg st cmd e pre cur m).1.gcodes_processed = st.gcodes_processed := by
  unfold offer_phase; split <;> simp

@[simp] theorem op_points (cfg : Config σ) (st : WelderState σ) (cmd : parsed_command)
    (e : Bool) (pre cur : position) (m : ℚ) :
    (offer_phase cfg st cmd e pre cur m).1.points_compressed = st.points_compressed := by
  unfold offer_phase; split <;> simp

@[simp] theorem op_arcs (cfg : Config σ) (st : WelderState σ) (cmd : parsed_command)
    (e : Bool) (pre cur : position) (m : ℚ) :
    (offer_phase cfg st cmd e pre cur m).1.arcs_created = st.arcs_created := by
  unfold offer_phase; split <;> simp

@[simp] theorem op_events (cfg : Config σ) (st : WelderState σ) (cmd : parsed_command)
    (e : Bool) (pre cur : position) (m : ℚ) :
    (offer_phase cfg st cmd e pre cur m).1.arc_events = st.arc_events := by
  unfold offer_phase; split <;> simp

@[simp] theorem op_tracker (cfg : Config σ) (st : WelderState σ) (cmd : parsed_command)
    (e : Bool) (pre cur : position) (m : ℚ) :
    (offer_phase cfg st cmd e pre cur m).1.tracker = st.tracker := by
  unfold offer_phase; split <;> simp

/-- The `offer_phase` leaves the Building flag alone when no point was
accepted. -/
theorem op_waiting_of_not_added (cfg : Config σ) (st : WelderState σ)
    (cmd : parsed_command) (e : Bool) (pre cur : position) (m : ℚ)
    (h : (offer_phase cfg st cmd e pre cur m).2 = false) :
    (offer_phase cfg st cmd e pre cur m).1.waiting_for_arc = st.waiting_for_arc := by
  unfold offer_phase at h ⊢
  split
  · rename_i hc
    rw [if_pos hc] at h
    exact eb_waiting_of_not_added _ _ _ _ _ h
  · rfl

/-- Case analysis of the commit-or-abort block: it either leaves the
counters and commit ghosts alone (no commit, result flag `false`), or —
only from the Building state with the point rejected — performs exactly
one commit: one `write_arc_gcodes` call (hence one `undo_update`), one arc
event appended, `points_compressed` advanced by its segment count minus
one, the Building flag cleared, and the result flag `!is_end`. -/
theorem cof_cases (cfg : Config σ) (st : WelderState σ) (cmd : parsed_command)
    (a is_end : Bool) (pre : position) (m : ℚ) (st' : WelderState σ) (b : Bool)
    (h : commit_or_flush cfg st cmd a is_end pre m = (st', b)) :
    st'.reprocess_count = st.reprocess_count ∧
    st'.lines_processed = st.lines_processed ∧
    st'.gcodes_processed = st.gcodes_processed ∧
    ((st'.commit_count = st.commit_count ∧ st'.undo_count = st.undo_count ∧
      st'.points_compressed = st.points_compressed ∧
      st'.arcs_created = st.arcs_created ∧
      st'.arc_events = st.arc_events ∧ b = false) ∨
     (st.waiting_for_arc = true ∧ a = false ∧ st'.waiting_for_arc = false ∧
      st'.commit_count = st.commit_count + 1 ∧ st'.undo_count = st.undo_count + 1 ∧
      b = !is_end ∧
      ∃ n : ℕ, st'.points_compressed = st.points_compressed + ((n : ℤ) - 1) ∧
        st'.arcs_created = st.arcs_created + 1 ∧
        st'.arc_events = st.arc_events ++ [n])) := by
  unfold commit_or_flush at h
  split at h
  · rename_i hguard
    split at h
    · simp only [Prod.mk.injEq] at h
      obtain ⟨h1, h2⟩ := h; subst h1; subst h2
      exact ⟨by simp, by simp, by simp,
        Or.inl ⟨by simp, by simp, by simp, by simp, by simp, rfl⟩⟩
    · split at h
      · split at h
        · rename_i hmin hwait hshape
          simp only [Prod.mk.injEq] at h
          obtain ⟨h1, h2⟩ := h; subst h1; subst h2
          simp only [Bool.and_eq_true, Bool.not_eq_true'] at hguard
          exact ⟨by simp, by simp, by simp,
            Or.inr ⟨hwait, hguard.1, by simp, by simp, by simp, rfl,
              ⟨cfg.engine.get_num_segments st.arc, by simp, by simp, by simp⟩⟩⟩
        · simp only [Prod.mk.injEq] at h
          obtain ⟨h1, h2⟩ := h; subst h1; subst h2
          exact ⟨by simp, by simp, by simp,
            Or.inl ⟨by simp, by simp, by simp, by simp, by simp, rfl⟩⟩
      · simp only [Prod.mk.injEq] at h
        obtain ⟨h1, h2⟩ := h; subst h1; subst h2
        exact ⟨by simp, by simp, by simp,
          Or.inl ⟨by simp, by simp, by simp, by simp, by simp, rfl⟩⟩
  · simp only [Prod.mk.injEq] at h
    obtain ⟨h1, h2⟩ := h; subst h1; subst h2
    exact ⟨by simp, by simp, by simp,
      Or.inl ⟨by simp, by simp, by simp, by simp, by simp, rfl⟩⟩

/-- Case analysis of one full `process_gcode` pass: either no commit
happened (all commit ghosts and compression counters unchanged, result flag
`false`), or the pass started in the Building state and performed exactly
one commit with exactly one `undo_update`, ending Idle with result flag
`!is_end`.  The line counters are never touched by a pass. -/
theorem step_cases (cfg : Config σ) (st : WelderState σ) (cmd : parsed_command)
    (is_end is_reprocess : Bool) (st' : WelderState σ) (b : Bool)
    (h : process_gcode_step cfg st cmd is_end is_reprocess = (st', b)) :
    st'.reprocess_count = st.reprocess_count ∧
    st'.lines_processed = st.lines_processed ∧
    st'.gcodes_processed = st.gcodes_processed ∧
    ((st'.commit_count = st.commit_count ∧ st'.undo_count = st.undo_count ∧
      st'.points_compressed = st.points_compressed ∧
      st'.arcs_created = st.arcs_created ∧
      st'.arc_events = st.arc_events ∧ b = false) ∨
     (st.waiting_for_arc = true ∧ st'.waiting_for_arc = false ∧
      st'.commit_count = st.commit_count + 1 ∧ st'.undo_count = st.undo_count + 1 ∧
      b = !is_end ∧
      ∃ n : ℕ, st'.points_compressed = st.points_compressed + ((n : ℤ) - 1) ∧
        st'.arcs_created = st.arcs_created + 1 ∧
        st'.arc_events = st.arc_events ++ [n])) := by
  unfold process_gcode_step at h
  obtain ⟨h1, h2, h3, h4⟩ := cof_cases _ _ _ _ _ _ _ _ _ h
  simp only [op_reprocess, op_lines, op_gcodes, pp_reprocess, pp_lines, pp_gcodes,
    ssp_reprocess, ssp_lines, ssp_gcodes] at h1 h2 h3
  refine ⟨h1, h2, h3, ?_⟩
  rcases h4 with ⟨hc, hu, hp, ha, he, hb⟩ | ⟨hw, hadd, hw', hc, hu, hb, n, hp, ha, he⟩
  · exact Or.inl ⟨by simpa using hc, by simpa using hu, by simpa using hp,
      by simpa using ha, by simpa using he, hb⟩
  · refine Or.inr ⟨?_, hw', by simpa using hc, by simpa using hu, hb,
      ⟨n, by simpa using hp, by simpa using ha, by simpa using he⟩⟩
    have := op_waiting_of_not_added cfg _ cmd is_end _ _ _ hadd
    rw [hw] at this
    simpa using this.symm

end StepCases

section Reentry

variable {σ : Type}

/-- From the Idle state a single `process_gcode` pass can never reach the
commit branch: the commit requires `waiting_for_arc` before the pass, so a
pass entered Idle leaves the commit ghosts alone and requests no
reprocessing. -/
theorem step_no_commit_of_idle (cfg : Config σ) (st : WelderState σ)
    (cmd : parsed_command) (is_end is_reprocess : Bool) (st' : WelderState σ) (b : Bool)
    (hw : st.waiting_for_arc = false)
    (h : process_gcode_step cfg st cmd is_end is_reprocess = (st', b)) :
    b = false ∧ st'.commit_count = st.commit_count ∧ st'.undo_count = st.undo_count ∧
      st'.reprocess_count = st.reprocess_count := by
  obtain ⟨r1, -, -, c1⟩ := step_cases cfg st cmd is_end is_reprocess st' b h
  rcases c1 with ⟨hc, hu, -, -, -, hb⟩ | ⟨hw', -⟩
  · exact ⟨hb, hc, hu, r1⟩
  · rw [hw] at hw'; cases hw'

/-- C1: when a command rejected while Building triggers a commit of a
shaped arc (and it is not end-of-stream), the controller rolls the position
tracker back exactly one step via `undo_update` (`undo_count` equals
`commit_count` throughout) and reprocesses that same command exactly once
(`reprocess_count = 1`); the reprocessing pass cannot trigger another
commit (`commit_count ≤ 1`), so the recursion in `process_gcode` is
bounded to one level of re-entry and terminates (fuel 2 returns `some`). -/
theorem arc_commit_reentry_bounded (cfg : Config σ) (st : WelderState σ)
    (cmd : parsed_command) (is_end : Bool)
    (h0 : st.undo_count = 0) (h1 : st.commit_count = 0) (h2 : st.reprocess_count = 0) :
    ∃ st', process_gcodeF cfg 2 st cmd is_end false = some st' ∧
      st'.commit_count ≤ 1 ∧
      st'.undo_count = st'.commit_count ∧
      (st'.commit_count = 1 → is_end = false → st'.reprocess_count = 1) ∧
      (st'.commit_count = 0 → st'.reprocess_count = 0) := by
  rcases hs : process_gcode_step cfg st cmd is_end false with ⟨st1, b1⟩
  obtain ⟨r1, -, -, c1⟩ := step_cases cfg st cmd is_end false st1 b1 hs
  have e1 : process_gcodeF cfg 2 st cmd is_end false =
      (if b1 then
        process_gcodeF cfg 1 { st1 with reprocess_count := st1.reprocess_count + 1 }
          cmd false true
       else some st1) := by
    simp only [process_gcodeF]
    rw [hs]
  rcases c1 with ⟨hc, hu, -, -, -, hb⟩ | ⟨hw, hw1, hc, hu, hb, -⟩
  · subst hb
    refine ⟨st1, by rw [e1]; simp, ?_, ?_, ?_, ?_⟩
    · omega
    · omega
    · omega
    · omega
  · cases is_end
    · simp only [Bool.not_false] at hb
      subst hb
      rcases hs2 : process_gcode_step cfg
          { st1 with reprocess_count := st1.reprocess_count + 1 } cmd false true
        with ⟨st2, b2⟩
      have idle : ({ st1 with reprocess_count := st1.reprocess_count + 1 } :
          WelderState σ).waiting_for_arc = false := by simpa using hw1
      obtain ⟨hb2, hc2, hu2, hr2⟩ :=
        step_no_commit_of_idle cfg _ cmd false true st2 b2 idle hs2
      have e2 : process_gcodeF cfg 1
          { st1 with reprocess_count := st1.reprocess_count + 1 } cmd false true =
          some st2 := by
        simp only [process_gcodeF]
        rw [hs2]
        simp [hb2]
      have hc2' : st2.commit_count = st1.commit_count := by simpa using hc2
      have hu2' : st2.undo_count = st1.undo_count := by simpa using hu2
      have hr2' : st2.reprocess_count = st1.reprocess_count + 1 := by simpa using hr2
      refine ⟨st2, ?_, by omega, by omega, ?_, ?_⟩
      · rw [e1]; simpa using e2
      · intro _ _; omega
      · intro hcc; omega
    · simp only [Bool.not_true] at hb
      subst hb
      refine ⟨st1, by rw [e1]; simp, ?_, ?_, ?_, ?_⟩
      · omega
      · omega
      · intro _ h; cases h
      · omega

/-- Witness for the re-entry bound: the theorem applied to the concrete
configuration, the initial controller state and a concrete G1 command. -/
theorem arc_commit_reentry_bounded_witness :
    (initial_state mcfg base_position).undo_count = 0 ∧
    (initial_state mcfg base_position).commit_count = 0 ∧
    (initial_state mcfg base_position).reprocess_count = 0 ∧
    (∃ st', process_gcodeF mcfg 2 (initial_state mcfg base_position) g1_command false false =
        some st' ∧
      st'.commit_count ≤ 1 ∧
      st'.undo_count = st'.commit_count ∧
      (st'.commit_count = 1 → false = false → st'.reprocess_count = 1) ∧
      (st'.commit_count = 0 → st'.reprocess_count = 0)) :=
  ⟨rfl, rfl, rfl,
    arc_commit_reentry_bounded mcfg (initial_state mcfg base_position) g1_command false
      rfl rfl rfl⟩

end Reentry


section CounterInvariant

variable {σ : Type}

/-- A commit advances `points_compressed` and `arcs_created` in lockstep
with the recorded arc event. -/
theorem commit_keeps_inv (st st1 : WelderState σ) (n : ℕ)
    (hpp : st1.points_compressed = st.points_compressed + ((n : ℤ) - 1))
    (haa : st1.arcs_created = st.arcs_created + 1)
    (hee : st1.arc_events = st.arc_events ++ [n])
    (hp : st.points_compressed = (st.arc_events.map (fun k => (k : ℤ) - 1)).sum)
    (ha : st.arcs_created = st.arc_events.length) :
    st1.points_compressed = (st1.arc_events.map (fun k => (k : ℤ) - 1)).sum ∧
      st1.arcs_created = st1.arc_events.length := by
  constructor
  · rw [hpp, hee, hp]; simp
  · rw [haa, hee, ha]; simp

/-- The counter invariant (`points_compressed` is the sum of
segment-count-minus-one over the recorded arc events, `arcs_created` their
number) is preserved by `process_gcodeF` at any fuel. -/
theorem processF_counter_inv (cfg : Config σ) :
    ∀ (fuel : ℕ) (st : WelderState σ) (cmd : parsed_command) (is_end rep : Bool)
      (st' : WelderState σ),
      process_gcodeF cfg fuel st cmd is_end rep = some st' →
      st.points_compressed = (st.arc_events.map (fun k => (k : ℤ) - 1)).sum →
      st.arcs_created = st.arc_events.length →
      st'.points_compressed = (st'.arc_events.map (fun k => (k : ℤ) - 1)).sum ∧
        st'.arcs_created = st'.arc_events.length := by
  intro fuel
  induction fuel with
  | zero =>
    intro st cmd is_end rep st' h hp ha
    rcases hs : process_gcode_step cfg st cmd is_end rep with ⟨st1, b1⟩
    rw [show process_gcodeF cfg 0 st cmd is_end rep =
        (if (process_gcode_step cfg st cmd is_end rep).2 then none
         else some (process_gcode_step cfg st cmd is_end rep).1) from rfl, hs] at h
    obtain ⟨-, -, -, c1⟩ := step_cases cfg st cmd is_end rep st1 b1 hs
    cases b1
    · simp only [Bool.false_eq_true, if_false] at h
      obtain rfl : st1 = st' := by simpa using h
      rcases c1 with ⟨-, -, hpp, haa, hee, -⟩ | ⟨-, -, -, -, -, n, hpp, haa, hee⟩
      · rw [hpp, haa, hee]; exact ⟨hp, ha⟩
      · exact commit_keeps_inv st st1 n hpp haa hee hp ha
    · simp at h
  | succ m ih =>
    intro st cmd is_end rep st' h hp ha
    rcases hs : process_gcode_step cfg st cmd is_end rep with ⟨st1, b1⟩
    rw [show process_gcodeF cfg (m + 1) st cmd is_end rep =
        (if (process_gcode_step cfg st cmd is_end rep).2 then
          process_gcodeF cfg m
            { (process_gcode_step cfg st cmd is_end rep).1 with reprocess_count :=
                (process_gcode_step cfg st cmd is_end rep).1.reprocess_count + 1 }
            cmd false true
         else some (process_gcode_step cfg st cmd is_end rep).1) from rfl, hs] at h
    obtain ⟨-, -, -, c1⟩ := step_cases cfg st cmd is_end rep st1 b1 hs
    cases b1
    · simp only [Bool.false_eq_true, if_false] at h
      obtain rfl : st1 = st' := by simpa using h
      rcases c1 with ⟨-, -, hpp, haa, hee, -⟩ | ⟨-, -, -, -, -, n, hpp, haa, hee⟩
      · rw [hpp, haa, hee]; exact ⟨hp, ha⟩
      · exact commit_keeps_inv st st1 n hpp haa hee hp ha
    · simp only [if_true] at h
      have hinv1 : st1.points_compressed = (st1.arc_events.map (fun k => (k : ℤ) - 1)).sum ∧
          st1.arcs_created = st1.arc_events.length := by
        rcases c1 with ⟨-, -, hpp, haa, hee, hb⟩ | ⟨-, -, -, -, -, n, hpp, haa, hee⟩
        · rw [hpp, haa, hee]; exact ⟨hp, ha⟩
        · exact commit_keeps_inv st st1 n hpp haa hee hp ha
      exact ih _ cmd false true st' h (by simpa using hinv1.1) (by simpa using hinv1.2)

/-- The counter invariant is preserved by one full `process_gcode` call. -/
theorem run_step_counter_inv (cfg : Config σ) (st : WelderState σ)
    (cmd : parsed_command) (is_end : Bool)
    (hp : st.points_compressed = (st.arc_events.map (fun k => (k : ℤ) - 1)).sum)
    (ha : st.arcs_created = st.arc_events.length) :
    (process_gcode_run cfg st cmd is_end).points_compressed =
      ((process_gcode_run cfg st cmd is_end).arc_events.map (fun k => (k : ℤ) - 1)).sum ∧
      (process_gcode_run cfg st cmd is_end).arcs_created =
        (process_gcode_run cfg st cmd is_end).arc_events.length := by
  unfold process_gcode_run
  rcases h : process_gcodeF cfg 2 st cmd is_end false with _ | st'
  · simpa using ⟨hp, ha⟩
  · simpa using processF_counter_inv cfg 2 st cmd is_end false st' h hp ha

/-- The counter invariant holds after any run from a state satisfying it. -/
theorem run_counter_inv (cfg : Config σ) (cmds : List parsed_command) :
    ∀ (st : WelderState σ),
      st.points_compressed = (st.arc_events.map (fun k => (k : ℤ) - 1)).sum →
      st.arcs_created = st.arc_events.length →
      (run cfg st cmds).points_compressed =
        ((run cfg st cmds).arc_events.map (fun k => (k : ℤ) - 1)).sum ∧
        (run cfg st cmds).arcs_created = (run cfg st cmds).arc_events.length := by
  induction cmds with
  | nil => intro st hp ha; exact ⟨hp, ha⟩
  | cons c rest ih =>
    intro st hp ha
    have h1 := run_step_counter_inv cfg st c false hp ha
    simpa [run] using ih (process_gcode_run cfg st c false) h1.1 h1.2

/-- C4: at every point of a run (i.e. after any prefix of the source
commands, starting from the initial controller state), `points_compressed`
equals the sum over all emitted arcs of (segment count of the arc minus 1),
and `arcs_created` equals the number of G2/G3 arcs emitted so far — the
ghost `arc_events` field records exactly the segment counts of the emitted
arcs, in order. -/
theorem counters_match_arc_events (cfg : Config σ) (p0 : position)
    (cmds : List parsed_command) :
    (run cfg (initial_state cfg p0) cmds).points_compressed =
      ((run cfg (initial_state cfg p0) cmds).arc_events.map (fun k => (k : ℤ) - 1)).sum ∧
      (run cfg (initial_state cfg p0) cmds).arcs_created =
        (run cfg (initial_state cfg p0) cmds).arc_events.length := by
  exact run_counter_inv cfg cmds (initial_state cfg p0) (by simp [initial_state]) (by
    simp [initial_state])

end CounterInvariant

section PopBack

/-- Popping `k` entries off the back of a buffer that holds at least `k` entries keeps
exactly the first `length - k` entries. -/
theorem popBackN_eq_take {α : Type} (l : List α) :
    ∀ k : ℕ, k ≤ l.length → popBackN l k = l.take (l.length - k) := by
  intro k
  induction k with
  | zero => intro _; simp [popBackN]
  | succ m ih =>
    intro h
    have ihm := ih (by omega)
    simp only [popBackN, ihm]
    rw [List.dropLast_eq_take, List.length_take, List.take_take]
    congr 1
    omega

end PopBack

section ArcPop

variable {σ : Type}

/-- C2: whenever an arc with `N` accepted points is emitted
(`write_arc_gcodes`), exactly `N - 1` trailing entries are popped from the
back of `unwritten_commands` (the absorbed moves); the arc's start point's
command and all earlier buffered commands are untouched and are then
flushed, in order, to the output ahead of the arc line, and the commit
buffer is left empty. -/
theorem write_arc_pops_absorbed (cfg : Config σ) (st : WelderState σ)
    (rel : Bool) (fr : ℚ)
    (h : cfg.engine.get_num_segments st.arc - 1 ≤ st.unwritten_commands.length) :
    (write_arc_gcodes cfg st rel fr).unwritten_commands = [] ∧
    ∃ arcline,
      (write_arc_gcodes cfg st rel fr).output =
        st.output ++
          ((st.unwritten_commands.take
            (st.unwritten_commands.length -
              (cfg.engine.get_num_segments st.arc - 1))).map
            unwritten_command.to_string) ++ [arcline] := by
  constructor
  · simp [write_arc_gcodes, write_gcode]
  · refine ⟨if st.previous_is_extruder_relative then
        get_arc_gcode_relative cfg st.arc
          (if st.previous_feedrate > 0 ∧ st.previous_feedrate = fr then 0 else fr)
          (get_comment_for_arc st.unwritten_commands (cfg.engine.get_num_segments st.arc))
      else
        get_arc_gcode_absolute cfg st.arc (tracker_undo st.tracker).cur.extr.offset_e
          (if st.previous_feedrate > 0 ∧ st.previous_feedrate = fr then 0 else fr)
          (get_comment_for_arc st.unwritten_commands (cfg.engine.get_num_segments st.arc)),
      ?_⟩
    simp only [write_arc_gcodes, write_gcode, wug_output, wug_unwritten,
      popBackN_eq_take st.unwritten_commands _ h, List.append_assoc]

/-- Witness for the pop-back theorem at a concrete Building state with a
3-point candidate and four buffered commands. -/
def uc_entry (s c : String) : unwritten_command :=
  { serialized_text := s, comment := c, extrusion_length := 0 }

/-- A concrete Building state: 4 buffered commands, a 3-point candidate. -/
def c2_state : WelderState Nat :=
  { tracker := { cur := base_position, prev := base_position, older := [base_position] }
    arc := 3
    waiting_for_arc := true
    previous_feedrate := 1500
    previous_is_extruder_relative := false
    lines_processed := 4
    gcodes_processed := 4
    points_compressed := 0
    arcs_created := 0
    unwritten_commands :=
      [uc_entry "G1 X9.94 Y1.04 E0.01" "", uc_entry "G1 X9.78 Y2.08 E0.01" "",
       uc_entry "G1 X9.51 Y3.09 E0.01" "", uc_entry "G1 X9.14 Y4.07 E0.01" ""]
    output := []
    stats := []
    arc_events := []
    undo_count := 0
    commit_count := 0
    reprocess_count := 0 }

theorem write_arc_pops_absorbed_witness :
    (mcfg.engine.get_num_segments c2_state.arc - 1 ≤
      c2_state.unwritten_commands.length) ∧
    ((write_arc_gcodes mcfg c2_state false 1500).unwritten_commands = [] ∧
     ∃ arcline,
       (write_arc_gcodes mcfg c2_state false 1500).output =
         c2_state.output ++
           ((c2_state.unwritten_commands.take
             (c2_state.unwritten_commands.length -
               (mcfg.engine.get_num_segments c2_state.arc - 1))).map
             unwritten_command.to_string) ++ [arcline]) :=
  ⟨by decide, write_arc_pops_absorbed mcfg c2_state false 1500 (by decide)⟩

end ArcPop

section Eligibility

variable {σ : Type}

/-- A previous position that is retracting. -/
def pre_retract : position := { base_position with extr := retracting_extruder }

/-- A current position that is extruding. -/
def cur_extrude : position := { base_position with extr := extruding_extruder }

/-- Counterexample to C3 as stated: while Building, a G0/G1 whose previous
state is retracting and whose current state is extruding — an
extrusion-phase *switch* — is nonetheless arc-eligible, because the source
tests only `extruder_current.is_extruding` (`arc_welder.cpp:453`), not
"both extruding".  The spec-side phase rule rejects this input. -/
theorem eligible_despite_phase_switch :
    arc_eligible false false true g1_command pre_retract cur_extrude = true ∧
    phase_match_spec pre_retract cur_extrude = false := by
  constructor
  · rfl
  · rfl

/-- C3 amended: while Building, a G0/G1 is arc-eligible only if the
current command is extruding, or both it and the previous command are
retracting.  (A switch from extruding to retracting therefore terminates
the arc; a switch from retracting to extruding does not.) -/
theorem building_eligibility_phase (a3 : Bool) (cmd : parsed_command)
    (pre cur : position)
    (h : arc_eligible a3 false true cmd pre cur = true) :
    (cur.extr.is_extruding || (pre.extr.is_retracting && cur.extr.is_retracting)) = true := by
  simp only [arc_eligible, Bool.and_eq_true, Bool.not_true, Bool.false_or] at h
  exact h.2.1.1.1.2

end Eligibility

/-- Witness for the amended eligibility rule: a steadily extruding G1 while
Building is eligible, and satisfies the phase condition. -/
theorem building_eligibility_phase_witness :
    arc_eligible false false true g1_command base_position base_position = true ∧
    (base_position.extr.is_extruding ||
      (base_position.extr.is_retracting && base_position.extr.is_retracting)) = true :=
  ⟨rfl, building_eligibility_phase false g1_command base_position base_position rfl⟩

section EmptyLine

variable {σ : Type}

/-- An empty command is never arc-eligible (`!cmd.is_empty` at
`arc_welder.cpp:442`). -/
theorem arc_eligible_empty (a3 ie w : Bool) (cmd : parsed_command)
    (pre cur : position) (he : cmd.is_empty = true) :
    arc_eligible a3 ie w cmd pre cur = false := by
  simp [arc_eligible, he]

/-- The `finish_step` while Building only appends the current command to the
commit buffer. -/
theorem finish_step_building (s : WelderState σ) (a : Bool) (m : ℚ)
    (hw : s.waiting_for_arc = true) (ha : a = false) :
    finish_step s a m =
      { s with unwritten_commands :=
          s.unwritten_commands ++ [unwritten_command.of s.tracker.cur m] } := by
  unfold finish_step
  simp [hw, ha]

/-- C9: a source line that parses to an empty command with an empty comment
never terminates a Building arc: the commit-or-abort branch is skipped, the
line is appended to `unwritten_commands`, and the candidate arc, the
`waiting_for_arc` flag, and the output are left unchanged (no commit
happens). -/
theorem empty_line_preserves_building (cfg : Config σ) (st : WelderState σ)
    (cmd : parsed_command)
    (hupd : ∀ p c, (cfg.update_fn p c).command = c)
    (hw : st.waiting_for_arc = true) (he : cmd.is_empty = true)
    (hc : cmd.comment = "") (hcmd : cmd.command = "") :
    (process_gcode_run cfg st cmd false).waiting_for_arc = true ∧
    (process_gcode_run cfg st cmd false).arc = st.arc ∧
    (process_gcode_run cfg st cmd false).output = st.output ∧
    (process_gcode_run cfg st cmd false).commit_count = st.commit_count ∧
    ∃ uc, (process_gcode_run cfg st cmd false).unwritten_commands =
        st.unwritten_commands ++ [uc] ∧
      uc.serialized_text = cmd.gcode ∧ uc.comment = cmd.comment := by
  have hstep : process_gcode_step cfg st cmd false false =
      (finish_step (precision_phase cfg (source_stats_phase cfg st cmd false).1 cmd)
        false (source_stats_phase cfg st cmd false).2, false) := by
    unfold process_gcode_step offer_phase commit_or_flush
    simp [arc_eligible_empty _ _ _ _ _ _ he, he, hc]
  have hrun : process_gcode_run cfg st cmd false =
      finish_step (precision_phase cfg (source_stats_phase cfg st cmd false).1 cmd)
        false (source_stats_phase cfg st cmd false).2 := by
    unfold process_gcode_run
    simp only [process_gcodeF]
    rw [hstep]
    rfl
  have hpparc : (precision_phase cfg (source_stats_phase cfg st cmd false).1 cmd).arc =
      (source_stats_phase cfg st cmd false).1.arc := by
    simp [precision_phase, hcmd]
  have hppw : (precision_phase cfg (source_stats_phase cfg st cmd false).1 cmd
      ).waiting_for_arc = st.waiting_for_arc := by simp
  have hfin := finish_step_building
    (precision_phase cfg (source_stats_phase cfg st cmd false).1 cmd) false
    (source_stats_phase cfg st cmd false).2 (by rw [hppw]; exact hw) rfl
  rw [hrun, hfin]
  refine ⟨by simpa using hw, by simpa using hpparc, by simp, by simp, ?_⟩
  refine ⟨unwritten_command.of
      (precision_phase cfg (source_stats_phase cfg st cmd false).1 cmd).tracker.cur
      (source_stats_phase cfg st cmd false).2, by simp, ?_, ?_⟩
  · simp [pp_tracker, ssp_tracker, tracker_update, unwritten_command.of, hupd]
  · simp [pp_tracker, ssp_tracker, tracker_update, unwritten_command.of, hupd]

/-- Witness for the empty-line theorem at a concrete Building state and a
blank source line. -/
theorem empty_line_preserves_building_witness :
    (∀ p c, (mcfg.update_fn p c).command = c) ∧
    c2_state.waiting_for_arc = true ∧
    blank_command.is_empty = true ∧
    blank_command.comment = "" ∧
    blank_command.command = "" ∧
    ((process_gcode_run mcfg c2_state blank_command false).waiting_for_arc = true ∧
     (process_gcode_run mcfg c2_state blank_command false).arc = c2_state.arc ∧
     (process_gcode_run mcfg c2_state blank_command false).output = c2_state.output ∧
     (process_gcode_run mcfg c2_state blank_command false).commit_count =
       c2_state.commit_count ∧
     ∃ uc, (process_gcode_run mcfg c2_state blank_command false).unwritten_commands =
         c2_state.unwritten_commands ++ [uc] ∧
       uc.serialized_text = blank_command.gcode ∧
       uc.comment = blank_command.comment) :=
  ⟨fun _ _ => rfl, rfl, rfl, rfl, rfl,
    empty_line_preserves_building mcfg c2_state blank_command (fun _ _ => rfl)
      rfl rfl rfl rfl⟩

end EmptyLine

section EndOfStream

variable {σ : Type}

/-- With `is_end` set, no command is arc-eligible (`!is_end` at
`arc_welder.cpp:442`). -/
theorem arc_eligible_end (a3 w : Bool) (cmd : parsed_command) (pre cur : position) :
    arc_eligible a3 true w cmd pre cur = false := by
  simp [arc_eligible]

/-- Counterexample to C5 as stated: at end-of-stream with a Building
controller holding a valid shape, the arc is *not* emitted when the last
parsed source line was an empty command with an empty comment (e.g. a
blank final line): the end-of-stream pass re-runs that empty command, and
the guard at `arc_welder.cpp:584` skips the whole commit-or-abort block,
so no arc is created (`arcs_created` and the `commit_count` ghost stay 0)
even though the claim's premises hold. -/
theorem end_blank_line_skips_commit :
    mcfg.engine.is_shape c2_state.arc = true ∧
    c2_state.waiting_for_arc = true ∧
    (process_end mcfg c2_state blank_command).arcs_created = 0 ∧
    (process_end mcfg c2_state blank_command).commit_count = 0 := by
  refine ⟨rfl, rfl, ?_, ?_⟩ <;> decide

/-- C5 amended: after the last source line, if the controller is Building
and the engine holds a valid shape, the end-of-stream pass re-runs the
last parsed command under the same commit rules as during processing — in
particular the commit is skipped when that command is empty with an empty
comment; when it is not (the hypotheses below), the arc is emitted
(`arcs_created` increments).  Afterwards all remaining unwritten commands
are flushed (the commit buffer is empty), as they are in every case.  The
engine-law hypotheses are the spec's: a valid shape has at least
`min_segments` points, and precision updates do not change the point count
or shape status. -/
theorem process_end_commits_nonempty (cfg : Config σ) (st : WelderState σ)
    (last : parsed_command)
    (hlaw : ∀ s, cfg.engine.is_shape s = true →
      cfg.engine.min_segments ≤ cfg.engine.get_num_segments s)
    (hupn : ∀ s c, cfg.engine.get_num_segments (cfg.engine.update_precision s c) =
      cfg.engine.get_num_segments s)
    (hups : ∀ s c, cfg.engine.is_shape (cfg.engine.update_precision s c) =
      cfg.engine.is_shape s)
    (hw : st.waiting_for_arc = true)
    (hs : cfg.engine.is_shape st.arc = true)
    (hne : (last.is_empty && last.comment.length == 0) = false) :
    (process_end cfg st last).arcs_created = st.arcs_created + 1 ∧
    (process_end cfg st last).unwritten_commands = [] := by
  have hnum : cfg.engine.get_num_segments
      (precision_phase cfg (source_stats_phase cfg st last false).1 last).arc =
      cfg.engine.get_num_segments st.arc := by
    unfold precision_phase
    split <;> simp [hupn]
  have hshape' : cfg.engine.is_shape
      (precision_phase cfg (source_stats_phase cfg st last false).1 last).arc = true := by
    unfold precision_phase
    split <;> simp [hups, hs]
  have hlt : ¬(cfg.engine.get_num_segments
      (precision_phase cfg (source_stats_phase cfg st last false).1 last).arc <
      cfg.engine.min_segments) := by
    rw [hnum]
    exact not_lt.2 (hlaw _ hs)
  have hwait : (precision_phase cfg (source_stats_phase cfg st last false).1 last
      ).waiting_for_arc = true := by simp [hw]
  have hstep : process_gcode_step cfg st last true false =
      (write_arc_gcodes cfg
        { precision_phase cfg (source_stats_phase cfg st last false).1 last with
          points_compressed :=
            (precision_phase cfg (source_stats_phase cfg st last false).1 last
              ).points_compressed +
            ((cfg.engine.get_num_segments
              (precision_phase cfg (source_stats_phase cfg st last false).1 last).arc : ℤ)
              - 1)
          arcs_created :=
            (precision_phase cfg (source_stats_phase cfg st last false).1 last
              ).arcs_created + 1
          arc_events :=
            (precision_phase cfg (source_stats_phase cfg st last false).1 last
              ).arc_events ++
            [cfg.engine.get_num_segments
              (precision_phase cfg (source_stats_phase cfg st last false).1 last).arc] }
        (precision_phase cfg (source_stats_phase cfg st last false).1 last
          ).tracker.prev.is_extruder_relative
        (precision_phase cfg (source_stats_phase cfg st last false).1 last
          ).tracker.prev.f, false) := by
    unfold process_gcode_step offer_phase commit_or_flush
    simp [arc_eligible_end, hne, hlt, hwait, hshape', hw]
  have hrun : process_gcode_run cfg st last true =
      (process_gcode_step cfg st last true false).1 := by
    unfold process_gcode_run
    simp only [process_gcodeF]
    rw [hstep]
    rfl
  have hguard : (cfg.engine.is_shape st.arc && st.waiting_for_arc) = true := by
    simp [hs, hw]
  have hpe : process_end cfg st last =
      write_unwritten_gcodes (process_gcode_run cfg st last true) := by
    unfold process_end
    rw [hguard]
    simp
  rw [hpe, hrun, hstep]
  constructor
  · simp
  · simp

end EndOfStream

/-- Witness for the end-of-stream commit: the theorem applied to the
concrete engine, a Building 3-point state, and a non-empty last command. -/
theorem process_end_commits_nonempty_witness :
    c2_state.waiting_for_arc = true ∧
    mcfg.engine.is_shape c2_state.arc = true ∧
    (m104_command.is_empty && m104_command.comment.length == 0) = false ∧
    ((process_end mcfg c2_state m104_command).arcs_created = c2_state.arcs_created + 1 ∧
     (process_end mcfg c2_state m104_command).unwritten_commands = []) :=
  ⟨rfl, rfl, rfl,
    process_end_commits_nonempty mcfg c2_state m104_command
      (fun s h => by
        simp only [mcfg, count_engine, decide_eq_true_eq] at h ⊢
        exact h)
      (fun _ _ => rfl) (fun _ _ => rfl) rfl rfl rfl⟩

section CommentSynthesis

variable {σ : Type}

/-- Splitting the conditional comment append of
`get_arc_gcode_relative` / `get_arc_gcode_absolute`. -/
theorem arc_gcode_comment_split (g c : String) :
    (if c.length > 0 then g ++ ";" ++ c else g) =
      g ++ (if c.length > 0 then ";" ++ c else "") := by
  split
  · rw [String.append_assoc]
  · rw [String.append_empty]

/-- Folding `comment_fold` over all-empty comments changes nothing. -/
theorem comment_fold_all_empty :
    ∀ (l : List String), (∀ x ∈ l, x = "") → ∀ acc, l.foldl comment_fold acc = acc := by
  intro l
  induction l with
  | nil => intro _ acc; rfl
  | cons c t ih =>
    intro h acc
    have hc : c = "" := h c (by simp)
    have hrest : ∀ x ∈ t, x = "" := fun x hx => h x (by simp [hx])
    simp only [List.foldl_cons]
    rw [show comment_fold acc c = acc by simp [comment_fold, hc]]
    exact ih hrest acc

/-- C8 amended: the comment appended after `";"` on the emitted arc line is
`get_comment_for_arc` of the commit buffer — the fold that appends each of
the last `N-1` absorbed comments when it is non-empty and differs from the
*entire accumulated comment string* so far, separator `" - "` (not the
join of the distinct comments); when all absorbed comments are empty, no
`";"` or comment is appended to the arc line. -/
theorem write_arc_appends_fold_comment (cfg : Config σ) (st : WelderState σ)
    (rel : Bool) (fr : ℚ) :
    (∃ ls base, (write_arc_gcodes cfg st rel fr).output = ls ++
      [base ++ (if (get_comment_for_arc st.unwritten_commands
                  (cfg.engine.get_num_segments st.arc)).length > 0
                then ";" ++ get_comment_for_arc st.unwritten_commands
                  (cfg.engine.get_num_segments st.arc)
                else "")]) ∧
    ((∀ u ∈ st.unwritten_commands.drop
        (st.unwritten_commands.length - (cfg.engine.get_num_segments st.arc - 1)),
        u.comment = "") →
      get_comment_for_arc st.unwritten_commands
        (cfg.engine.get_num_segments st.arc) = "") := by
  constructor
  · refine ⟨st.output ++ ((popBackN st.unwritten_commands
        (cfg.engine.get_num_segments st.arc - 1)).map unwritten_command.to_string),
      if st.previous_is_extruder_relative then
        cfg.engine.get_shape_gcode_relative st.arc
          (if st.previous_feedrate > 0 ∧ st.previous_feedrate = fr then 0 else fr)
      else
        cfg.engine.get_shape_gcode_absolute st.arc
          (tracker_undo st.tracker).cur.extr.offset_e
          (if st.previous_feedrate > 0 ∧ st.previous_feedrate = fr then 0 else fr), ?_⟩
    simp only [write_arc_gcodes, write_gcode, wug_output, wug_unwritten,
      get_arc_gcode_relative, get_arc_gcode_absolute, List.append_assoc]
    congr 1
    split
    · rw [arc_gcode_comment_split]
    · rw [arc_gcode_comment_split]
  · intro hall
    unfold get_comment_for_arc
    apply comment_fold_all_empty
    intro x hx
    rw [List.mem_map] at hx
    obtain ⟨u, hu, rfl⟩ := hx
    exact hall u hu

end CommentSynthesis

/-- A Building state whose 4-point candidate absorbed three moves with
comments `a`, `b`, `a` (the first buffer entry is the arc's start point). -/
def c8_state : WelderState Nat :=
  { c2_state with
    arc := 4
    unwritten_commands :=
      [uc_entry "G1 X9.94 Y1.04 E0.01" "", uc_entry "G1 X9.78 Y2.08 E0.01" "a",
       uc_entry "G1 X9.51 Y3.09 E0.01" "b", uc_entry "G1 X9.14 Y4.07 E0.01" "a"] }

/-- Counterexample to C8 as stated: with absorbed comments `a`, `b`, `a`,
the source's fold (`old_comment != comment` compares against the whole
accumulated string, `arc_welder.cpp:720`) emits `"a - b - a"`, repeating
the duplicate, while the claim's "concatenation of the distinct non-empty
comments" would give `"a - b"`; the emitted arc line carries the former. -/
theorem arc_comment_repeats_duplicate :
    get_comment_for_arc c8_state.unwritten_commands
      (mcfg.engine.get_num_segments c8_state.arc) = "a - b - a" ∧
    comment_spec ((c8_state.unwritten_commands.drop
      (c8_state.unwritten_commands.length -
        (mcfg.engine.get_num_segments c8_state.arc - 1))).map
      (fun u => u.comment)) = "a - b" ∧
    "a - b - a" ≠ "a - b" ∧
    (write_arc_gcodes mcfg c8_state false 1500).output.getLast? =
      some ("G3 X0 Y10 I-10 J0 E0.36" ++ ";" ++ "a - b - a") := by
  refine ⟨?_, ?_, ?_, ?_⟩ <;> decide


section OpenFailures

variable {σ : Type}

/-- C7 amended: if the source file cannot be opened, `process()` returns
`{success: false, cancelled: false, message: "Unable to open the source
file."}` (note the trailing period) without ever opening the target; if
the target file cannot be opened, it returns `{success: false, cancelled:
false, message: "Unable to open the target file."}` with the source file
closed; in both cases both files are closed on return. -/
theorem open_failure_results (cfg : Config σ) (tok : Bool) (p0 : position)
    (lines : List parsed_command) :
    ((process_model cfg false tok p0 lines).results.success = false ∧
     (process_model cfg false tok p0 lines).results.cancelled = false ∧
     (process_model cfg false tok p0 lines).results.message =
       "Unable to open the source file." ∧
     (process_model cfg false tok p0 lines).target_opened = false ∧
     (process_model cfg false tok p0 lines).source_open = false ∧
     (process_model cfg false tok p0 lines).target_open = false) ∧
    ((process_model cfg true false p0 lines).results.success = false ∧
     (process_model cfg true false p0 lines).results.cancelled = false ∧
     (process_model cfg true false p0 lines).results.message =
       "Unable to open the target file." ∧
     (process_model cfg true false p0 lines).target_opened = false ∧
     (process_model cfg true false p0 lines).source_open = false ∧
     (process_model cfg true false p0 lines).target_open = false) := by
  constructor
  · exact ⟨rfl, rfl, rfl, rfl, rfl, rfl⟩
  · exact ⟨rfl, rfl, rfl, rfl, rfl, rfl⟩

/-- Counterexample to C7 as stated: the open-failure messages carry a
trailing period (`arc_welder.cpp:233` and `:245`), so they are not equal
to the claim's quoted strings. -/
theorem open_failure_message_has_period :
    (process_model mcfg false true base_position []).results.message =
      "Unable to open the source file." ∧
    (process_model mcfg false true base_position []).results.message ≠
      "Unable to open the source file" ∧
    (process_model mcfg true false base_position []).results.message =
      "Unable to open the target file." ∧
    (process_model mcfg true false base_position []).results.message ≠
      "Unable to open the target file" := by
  refine ⟨?_, ?_, ?_, ?_⟩ <;> decide

end OpenFailures

section ProgressDefaults

variable {σ : Type}

/-- C10: for every call of `get_progress` with `source_file_position = 0`,
the `compression_rate` (the C++ `compression_ratio`) and
`compression_percent` fields retain their default values — the divisions
producing them are guarded by `source_file_position > 0`
(`arc_welder.cpp:367`). -/
theorem progress_zero_position_keeps_defaults (st : WelderState σ)
    (num_fw : Nat) (file_size : ℤ) (seconds_elapsed : ℚ) :
    (get_progress st num_fw 0 file_size seconds_elapsed).compression_rate =
      default_compression_rate ∧
    (get_progress st num_fw 0 file_size seconds_elapsed).compression_percent =
      default_compression_percent := by
  constructor <;> simp [get_progress]

end ProgressDefaults

section Cancellation

variable {σ : Type}

/-- The fueled `process_gcodeF` never changes `lines_processed` (it is incremented
only by the read loop). -/
theorem processF_lines (cfg : Config σ) :
    ∀ (fuel : ℕ) (st : WelderState σ) (cmd : parsed_command) (is_end rep : Bool)
      (st' : WelderState σ),
      process_gcodeF cfg fuel st cmd is_end rep = some st' →
      st'.lines_processed = st.lines_processed := by
  intro fuel
  induction fuel with
  | zero =>
    intro st cmd is_end rep st' h
    rcases hs : process_gcode_step cfg st cmd is_end rep with ⟨st1, b1⟩
    rw [show process_gcodeF cfg 0 st cmd is_end rep =
        (if (process_gcode_step cfg st cmd is_end rep).2 then none
         else some (process_gcode_step cfg st cmd is_end rep).1) from rfl, hs] at h
    obtain ⟨-, hl, -, -⟩ := step_cases cfg st cmd is_end rep st1 b1 hs
    cases b1
    · simp only [Bool.false_eq_true, if_false] at h
      obtain rfl : st1 = st' := by simpa using h
      exact hl
    · simp at h
  | succ m ih =>
    intro st cmd is_end rep st' h
    rcases hs : process_gcode_step cfg st cmd is_end rep with ⟨st1, b1⟩
    rw [show process_gcodeF cfg (m + 1) st cmd is_end rep =
        (if (process_gcode_step cfg st cmd is_end rep).2 then
          process_gcodeF cfg m
            { (process_gcode_step cfg st cmd is_end rep).1 with reprocess_count :=
                (process_gcode_step cfg st cmd is_end rep).1.reprocess_count + 1 }
            cmd false true
         else some (process_gcode_step cfg st cmd is_end rep).1) from rfl, hs] at h
    obtain ⟨-, hl, -, -⟩ := step_cases cfg st cmd is_end rep st1 b1 hs
    cases b1
    · simp only [Bool.false_eq_true, if_false] at h
      obtain rfl : st1 = st' := by simpa using h
      exact hl
    · simp only [if_true] at h
      have := ih _ cmd false true st' h
      simpa [hl] using this

/-- One `process_gcode_run` call never changes `lines_processed`. -/
theorem run_lines_frame (cfg : Config σ) (st : WelderState σ)
    (cmd : parsed_command) (is_end : Bool) :
    (process_gcode_run cfg st cmd is_end).lines_processed = st.lines_processed := by
  unfold process_gcode_run
  rcases h : process_gcodeF cfg 2 st cmd is_end false with _ | st'
  · simp
  · simpa using processF_lines cfg 2 st cmd is_end false st' h

/-- One loop-body execution advances `lines_processed` by exactly one. -/
theorem loop_body_lines (cfg : Config σ) (st : WelderState σ) (l : parsed_command) :
    (loop_body cfg st l).lines_processed = st.lines_processed + 1 := by
  simp only [loop_body]
  split <;> simp [run_lines_frame]

/-- Line accounting of the read loop: every processed line was consumed,
and at most one consumed line was not processed (the one read by the
`getline && continue_processing` loop condition after cancellation). -/
theorem loop_counts (cfg : Config σ) :
    ∀ (lines : List parsed_command) (st : WelderState σ) (cont : Bool)
      (last : parsed_command),
      (process_loop cfg lines st cont last).1.lines_processed +
        (process_loop cfg lines st cont last).2.2.1.length ≤
        st.lines_processed + lines.length ∧
      st.lines_processed + lines.length ≤
        (process_loop cfg lines st cont last).1.lines_processed +
          (process_loop cfg lines st cont last).2.2.1.length + 1 := by
  intro lines
  induction lines with
  | nil =>
    intro st cont last
    simp [process_loop]
  | cons l rest ih =>
    intro st cont last
    cases cont
    · simp only [process_loop, Bool.not_false, if_true]
      simp
      omega
    · have hunf : process_loop cfg (l :: rest) st true last =
          process_loop cfg rest (loop_body cfg st l)
            (loop_cont cfg (loop_body cfg st l) l true) l := by
        simp [process_loop]
      rw [hunf]
      obtain ⟨ih1, ih2⟩ := ih (loop_body cfg st l)
        (loop_cont cfg (loop_body cfg st l) l true) l
      rw [loop_body_lines] at ih1 ih2
      constructor
      · simp only [List.length_cons]
        omega
      · simp only [List.length_cons]
        omega

/-- The end handling `process_end` always leaves the commit buffer empty (its final action
is the flush `write_unwritten_gcodes_to_file`). -/
theorem process_end_unwritten (cfg : Config σ) (st : WelderState σ)
    (last : parsed_command) :
    (process_end cfg st last).unwritten_commands = [] := by
  unfold process_end
  simp

/-- The end handling `process_end` does not change `lines_processed`. -/
theorem process_end_lines (cfg : Config σ) (st : WelderState σ)
    (last : parsed_command) :
    (process_end cfg st last).lines_processed = st.lines_processed := by
  unfold process_end
  split <;> simp [run_lines_frame]

/-- C6 amended: when the progress callback requests cancellation, the run
stops between source lines — every processed line was consumed and at most
one further line is read (by the `getline && continue_processing` loop
condition) and discarded without being processed; the end-of-stream
commit-or-abort still runs and all pending unwritten commands are flushed
(the commit buffer ends empty); and the returned flags satisfy
`success = !cancelled` (so a cancelled run reports `success = false,
cancelled = true`). -/
theorem cancellation_flags_flush_and_reads (cfg : Config σ) (p0 : position)
    (lines : List parsed_command) :
    (process_model cfg true true p0 lines).results.success =
      !(process_model cfg true true p0 lines).results.cancelled ∧
    (process_model cfg true true p0 lines).st.unwritten_commands = [] ∧
    lines.length - (process_model cfg true true p0 lines).remaining.length ≤
      (process_model cfg true true p0 lines).st.lines_processed + 1 ∧
    (process_model cfg true true p0 lines).st.lines_processed +
      (process_model cfg true true p0 lines).remaining.length ≤ lines.length := by
  obtain ⟨hcount1, hcount2⟩ := loop_counts cfg lines (initial_state cfg p0)
    (cfg.progress_cb 0) parsed_command.cleared
  have hinit : (initial_state cfg p0).lines_processed = 0 := rfl
  rw [hinit] at hcount1 hcount2
  simp only [process_model, Bool.not_true, Bool.false_eq_true, if_false, ite_false]
  refine ⟨by simp, process_end_unwritten _ _ _, ?_, ?_⟩
  · rw [process_end_lines]
    omega
  · rw [process_end_lines]
    omega

end Cancellation

/-- A configuration whose progress callback says continue on the initial
update (at 0 processed lines) and requests cancellation afterwards. -/
def mcfg_cancel : Config Nat := { mcfg with progress_cb := fun n => n == 0 }

/-- Counterexample to C6 as stated: with three source lines and a callback
that cancels after the first processed line, the loop condition
`getline && continue_processing` still reads the second line before
testing the flag — only one line is processed, but only one (not two)
remains unread, so a further line *was* read after cancellation; the run
still reports `cancelled = true, success = false`. -/
theorem cancellation_reads_one_more_line :
    (process_model mcfg_cancel true true base_position
      [m104_command, m104_command, m104_command]).results.cancelled = true ∧
    (process_model mcfg_cancel true true base_position
      [m104_command, m104_command, m104_command]).results.success = false ∧
    (process_model mcfg_cancel true true base_position
      [m104_command, m104_command, m104_command]).st.lines_processed = 1 ∧
    (process_model mcfg_cancel true true base_position
      [m104_command, m104_command, m104_command]).remaining = [m104_command] ∧
    (process_model mcfg_cancel true true base_position
      [m104_command, m104_command, m104_command]).remaining ≠
      [m104_command, m104_command] := by
  refine ⟨?_, ?_, ?_, ?_, ?_⟩ <;> decide
